import Mathlib

/-!
Verification of the UI-Smith agent pipeline (TypeScript) against its
natural-language specification.  The definitions below are a shallow
embedding of the source files `src/agents/ui-architect.ts`,
`src/agents/design-critic.ts`, the accessibility agent,
`src/agents/orchestrator.ts` and `src/mcp/export/server.ts`.
JavaScript values stored in component property bags are modelled by the
`JValue` type; code that can raise a `TypeError` at runtime is modelled
in the `Except String` monad.
-/

namespace UISmith

/-- JSON-like property value, mirroring the untyped `Record<string, unknown>`
property bags of the source.  Numbers are modelled as integers (all numbers
appearing in the source templates are integral). -/
inductive JValue : Type where
  | str (s : String)
  | num (n : Int)
  | bool (b : Bool)
  | null
  | arr (xs : List JValue)
  | obj (fields : List (String × JValue))

/-- JavaScript truthiness of a value. -/
def JValue.truthy : JValue → Bool
  | .str s => s != ""
  | .num n => n != 0
  | .bool b => b
  | .null => false
  | .arr _ => true
  | .obj _ => true

/-- Property bags: ordered key/value lists (JS objects preserve insertion
order; keys are unique in all literals produced by the source). -/
abbrev Props := List (String × JValue)

/-- `props.k` — property lookup; `none` models JS `undefined`. -/
def jGet (props : Props) (k : String) : Option JValue :=
  (props.find? (fun kv => kv.1 == k)).map (fun kv => kv.2)

/-- Property access `v.k` on an arbitrary value: only objects carry
properties; access on primitives yields `undefined` (JS boxes primitives). -/
def jGetV (v : JValue) (k : String) : Option JValue :=
  match v with
  | .obj fs => jGet fs k
  | _ => none

/-- Truthiness of a possibly-undefined value. -/
def truthyOpt : Option JValue → Bool
  | some v => v.truthy
  | none => false

/-- Truthiness of `props.k`. -/
def propTruthy (props : Props) (k : String) : Bool :=
  truthyOpt (jGet props k)

/-- JS object spread `\x7b...a, ...b\x7d`: keys of `a` in order, values
overridden by `b` where shared, then the new keys of `b` in order. -/
def mergeProps (a b : Props) : Props :=
  (a.map (fun kv =>
    match jGet b kv.1 with
    | some v => (kv.1, v)
    | none => kv))
  ++ b.filter (fun kv => (jGet a kv.1).isNone)

/-- JS assignment `props.k = v`: overwrite in place, or append a new key. -/
def setProp (props : Props) (k : String) (v : JValue) : Props :=
  if (jGet props k).isSome then
    props.map (fun kv => if kv.1 == k then (k, v) else kv)
  else
    props ++ [(k, v)]

/-- ASCII lower-casing of one character (the only characters the fixed
keyword tables compare against are ASCII). -/
def charToLower (c : Char) : Char :=
  match c with
  | 'A' => 'a' | 'B' => 'b' | 'C' => 'c' | 'D' => 'd' | 'E' => 'e'
  | 'F' => 'f' | 'G' => 'g' | 'H' => 'h' | 'I' => 'i' | 'J' => 'j'
  | 'K' => 'k' | 'L' => 'l' | 'M' => 'm' | 'N' => 'n' | 'O' => 'o'
  | 'P' => 'p' | 'Q' => 'q' | 'R' => 'r' | 'S' => 's' | 'T' => 't'
  | 'U' => 'u' | 'V' => 'v' | 'W' => 'w' | 'X' => 'x' | 'Y' => 'y'
  | 'Z' => 'z' | c => c

/-- ASCII upper-casing of one character. -/
def charToUpper (c : Char) : Char :=
  match c with
  | 'a' => 'A' | 'b' => 'B' | 'c' => 'C' | 'd' => 'D' | 'e' => 'E'
  | 'f' => 'F' | 'g' => 'G' | 'h' => 'H' | 'i' => 'I' | 'j' => 'J'
  | 'k' => 'K' | 'l' => 'L' | 'm' => 'M' | 'n' => 'N' | 'o' => 'O'
  | 'p' => 'P' | 'q' => 'Q' | 'r' => 'R' | 's' => 'S' | 't' => 'T'
  | 'u' => 'U' | 'v' => 'V' | 'w' => 'W' | 'x' => 'X' | 'y' => 'Y'
  | 'z' => 'Z' | c => c

/-- `s.toLowerCase()` (ASCII). -/
def toLowerStr (s : String) : String :=
  String.mk (s.data.map charToLower)

/-- `s.toUpperCase()` (ASCII). -/
def toUpperStr (s : String) : String :=
  String.mk (s.data.map charToUpper)

/-- Character-list prefix test. -/
def listPrefix : List Char → List Char → Bool
  | [], _ => true
  | _ :: _, [] => false
  | p :: ps, c :: cs => p == c && listPrefix ps cs

/-- Substring search over the haystack's tails. -/
def strContainsAux (pat : List Char) : List Char → Bool
  | [] => listPrefix pat []
  | c :: rest => listPrefix pat (c :: rest) || strContainsAux pat rest

/-- `s.includes(pattern)`. -/
def strContains (s pattern : String) : Bool :=
  strContainsAux pattern.data s.data

/-- `s.startsWith(pre)`. -/
def startsWithStr (s pre : String) : Bool :=
  listPrefix pre.data s.data

mutual

/-- JS string coercion (template literals, `String(x)`, `toString()`). -/
def jsToString : JValue → String
  | .str s => s
  | .num n => toString n
  | .bool b => if b then "true" else "false"
  | .null => "null"
  | .obj _ => "[object Object]"
  | .arr xs => jsArrToString xs

/-- JS `Array.prototype.toString`: elements joined by commas, with `null`
elements rendered as the empty string. -/
def jsArrToString : List JValue → String
  | [] => ""
  | [x] => jsElemToString x
  | x :: rest => jsElemToString x ++ "," ++ jsArrToString rest

/-- One array element inside a join. -/
def jsElemToString : JValue → String
  | .null => ""
  | v => jsToString v

end

/-- Template-literal interpolation of a possibly-undefined value. -/
def jsToStringOpt : Option JValue → String
  | some v => jsToString v
  | none => "undefined"

/-- `component.metadata` of a `ComponentSpec` (informational only). -/
structure ComponentMeta where
  reason : Option String := none
  alternatives : Option (List String) := none

/-- One component node (`ComponentSpec` in `src/agents/types.ts`). -/
structure ComponentSpec where
  name : String
  props : Props
  children : Option (List JValue) := none
  metadata : Option ComponentMeta := none

/-- Layout hints of a `UISpec`. -/
structure LayoutSpec where
  type : Option String := none
  spacing : Option String := none
  maxWidth : Option String := none

/-- `UISpec.metadata`. -/
structure SpecMetadata where
  createdAt : Option String := none
  updatedAt : Option String := none
  version : Option Nat := none

/-- The UI specification threaded through the pipeline. -/
structure UISpec where
  id : String
  name : Option String := none
  description : Option String := none
  components : List ComponentSpec
  layout : Option LayoutSpec := none
  metadata : Option SpecMetadata := none

/-- Severity of a design issue. -/
inductive Severity where
  | error
  | warning
  | suggestion
deriving DecidableEq, Repr

/-- One design issue reported by the design critic. -/
structure DesignIssue where
  type : String
  severity : Severity
  message : String

/-- One improvement proposed by the design critic. -/
structure Improvement where
  componentIndex : Nat
  suggestion : String
  proposedProps : Option Props := none

/-- Critique output (`DesignFeedback` in `src/agents/types.ts`). -/
structure DesignFeedback where
  score : Int
  issues : List DesignIssue
  improvements : List Improvement

/-- Impact of an accessibility violation. -/
inductive Impact where
  | critical
  | serious
  | moderate
  | minor
deriving DecidableEq, Repr

/-- One accessibility violation. -/
structure Violation where
  rule : String
  impact : Impact
  description : String
  fix : String
  componentIndex : Option Nat := none

/-- One accessibility warning (never blocks the pipeline). -/
structure A11yWarning where
  rule : String
  description : String
  recommendation : String

/-- Validation output (`AccessibilityReport` in `src/agents/types.ts`). -/
structure AccessibilityReport where
  passed : Bool
  score : Int
  violations : List Violation
  warnings : List A11yWarning

/-- Number of critical-impact violations in a list. -/
def countCritical (vs : List Violation) : Nat :=
  (vs.filter (fun v => v.impact == Impact.critical)).length

/-- One error entry of an `AgentResponse`. -/
structure AgentError where
  code : String
  message : String

/-- Equality used by strict `===` comparisons and by JS `Set` membership on
primitives; non-primitive values compare by reference and two values reaching
these comparisons in the pipeline are never the same reference (the
specification is deep-cloned through JSON), so they count as distinct. -/
def jPrimEq : JValue → JValue → Bool
  | .str a, .str b => a == b
  | .num a, .num b => a == b
  | .bool a, .bool b => a == b
  | .null, .null => true
  | _, _ => false

/-- Helper for `jsSetSize`: counts distinct values, carrying the primitives
already seen. -/
def jsSetSizeAux : List JValue → List JValue → Nat
  | [], _ => 0
  | v :: rest, seen =>
    match v with
    | .str _ | .num _ | .bool _ | .null =>
      if seen.any (fun w => jPrimEq w v) then jsSetSizeAux rest seen
      else 1 + jsSetSizeAux rest (v :: seen)
    | _ => 1 + jsSetSizeAux rest seen

/-- Size of `new Set(vs)` under the reference-distinctness convention of
`jPrimEq`. -/
def jsSetSize (vs : List JValue) : Nat := jsSetSizeAux vs []

/-- JS strict equality `o === v` between a possibly-undefined value and a
primitive literal. -/
def jEqPrim (o : Option JValue) (v : JValue) : Bool :=
  match o with
  | some w => jPrimEq w v
  | none => false

/-- The JS `.length` read used by `testimonials.length`: defined for arrays
and strings, and for objects carrying a numeric `length` property. -/
def jLengthProp : JValue → Option Int
  | .arr xs => some xs.length
  | .str s => some s.length
  | .obj fs =>
    match jGet fs "length" with
    | some (.num n) => some n
    | _ => none
  | _ => none

namespace DesignCritic

/-- Per-issue score penalty of `calculateScore`. -/
def severityPenalty : Severity → Int
  | .error => 20
  | .warning => 10
  | .suggestion => 5

/-- The pricing-table branch of `checkComponent`: calling `tiers.some` on a
truthy non-array raises a `TypeError`, modelled as `Except.error`. -/
def pricingChecks (props : Props) (index : Nat) :
    Except String (List DesignIssue × List Improvement) :=
  match jGet props "tiers" with
  | some v =>
    if v.truthy then
      match v with
      | .arr tiers =>
        .ok ((if tiers.length < 2 then
                [{ type := "hierarchy", severity := .suggestion,
                   message := "Consider adding more pricing tiers for comparison" }]
              else []),
             (if !tiers.any (fun t => truthyOpt (jGetV t "featured")) then
                [{ componentIndex := index,
                   suggestion := "Mark one tier as featured to guide user attention",
                   proposedProps := none }]
              else []))
      | _ => .error "TypeError: tiers.some is not a function"
    else .ok ([], [])
  | none => .ok ([], [])

/-- `DesignCriticAgent.checkComponent`: rule checks for one component,
returning the issues and improvements it appends. -/
def checkComponent (c : ComponentSpec) (index : Nat) :
    Except String (List DesignIssue × List Improvement) := do
  let props := c.props
  let buttonImps : List Improvement :=
    if c.name == "Button" &&
        (match jGet props "size" with
         | some (.str s) => s == "xs" || s == "sm"
         | _ => false) then
      [{ componentIndex := index,
         suggestion := "Consider using a larger button for better visibility",
         proposedProps := some [("size", .str "md")] }]
    else []
  let buttonIssues : List DesignIssue :=
    if c.name == "Button" && propTruthy props "iconOnly" &&
        !propTruthy props "ariaLabel" && !propTruthy props "aria-label" then
      [{ type := "hierarchy", severity := .warning,
         message := "Button at index " ++ toString index ++ " is icon-only without an aria-label" }]
    else []
  let cardImps : List Improvement :=
    if c.name == "Card" then
      (if !propTruthy props "title" && !propTruthy props "header" then
        [{ componentIndex := index,
           suggestion := "Add a title for better visual hierarchy",
           proposedProps := some [("title", .str "Section Title")] }]
      else []) ++
      (if !propTruthy props "variant" then
        [{ componentIndex := index,
           suggestion := "Specify a card variant for visual interest",
           proposedProps := some [("variant", .str "elevated")] }]
      else [])
    else []
  let pricing : List DesignIssue × List Improvement ←
    if c.name == "PricingTable" then pricingChecks props index else .ok ([], [])
  let formImps : List Improvement :=
    if c.name == "Form" && !propTruthy props "showValidationOnBlur" &&
        !propTruthy props "showValidationOnChange" then
      [{ componentIndex := index,
         suggestion := "Enable validation feedback for better UX",
         proposedProps := some [("showValidationOnBlur", .bool true)] }]
    else []
  let chartImps : List Improvement :=
    if c.name == "Chart" then
      (if !propTruthy props "title" then
        [{ componentIndex := index,
           suggestion := "Add a title to provide context for the chart",
           proposedProps := some [("title", .str "Data Overview")] }]
      else []) ++
      (if jEqPrim (jGet props "showLegend") (.bool false) then
        [{ componentIndex := index,
           suggestion := "Consider showing the legend for better data understanding",
           proposedProps := some [("showLegend", .bool true)] }]
      else [])
    else []
  let dashImps : List Improvement :=
    if c.name == "DashboardLayout" then
      match jGet props "header" with
      | some h =>
        if h.truthy && !truthyOpt (jGetV h "showBreadcrumbs") then
          [{ componentIndex := index,
             suggestion := "Add breadcrumbs for better navigation context",
             proposedProps := none }]
        else []
      | none => []
    else []
  let testImps : List Improvement :=
    if c.name == "TestimonialSection" then
      (if (match jGet props "testimonials" with
           | some v =>
             v.truthy &&
               (match jLengthProp v with
                | some n => n < 3
                | none => false)
           | none => false) then
        [{ componentIndex := index,
           suggestion := "Add more testimonials for stronger social proof",
           proposedProps := none }]
      else []) ++
      (if !propTruthy props "showRatings" then
        [{ componentIndex := index,
           suggestion := "Show ratings to increase credibility",
           proposedProps := some [("showRatings", .bool true)] }]
      else [])
    else []
  .ok (buttonIssues ++ pricing.1,
       buttonImps ++ cardImps ++ pricing.2 ++ formImps ++ chartImps ++ dashImps ++ testImps)

/-- `DesignCriticAgent.checkLayout`: whole-specification checks. -/
def checkLayout (ui : UISpec) : List DesignIssue × List Improvement :=
  let countIssues : List DesignIssue :=
    if ui.components.length > 10 then
      [{ type := "hierarchy", severity := .warning,
         message := "Too many components may cause cognitive overload" }]
    else []
  let hasHeroContent := ui.components.any (fun c =>
    c.name == "Card" &&
      (jEqPrim (jGet c.props "size") (.str "lg") || jEqPrim (jGet c.props "size") (.str "xl")))
  let heroImps : List Improvement :=
    if !hasHeroContent && ui.components.length > 0 then
      [{ componentIndex := 0,
         suggestion := "Consider making the first element larger for visual impact",
         proposedProps := some [("size", .str "lg")] }]
    else []
  let hasButton := ui.components.any (fun c => c.name == "Button")
  let ctaIssues : List DesignIssue :=
    if !hasButton && !ui.components.any (fun c => c.name == "Form") then
      [{ type := "hierarchy", severity := .suggestion,
         message := "Consider adding a call-to-action button" }]
    else []
  (countIssues ++ ctaIssues, heroImps)

/-- `DesignCriticAgent.checkConsistency`: cross-component checks. -/
def checkConsistency (components : List ComponentSpec) : List DesignIssue :=
  let buttons := components.filter (fun c => c.name == "Button")
  let buttonSizes := (buttons.map (fun b => jGet b.props "size")).filterMap id
  let sizeIssues : List DesignIssue :=
    if jsSetSize buttonSizes > 2 then
      [{ type := "consistency", severity := .warning,
         message := "Too many different button sizes (use max 2 for consistency)" }]
    else []
  let cards := components.filter (fun c => c.name == "Card")
  let cardVariants := (cards.map (fun c => jGet c.props "variant")).filterMap id
  let variantIssues : List DesignIssue :=
    if jsSetSize cardVariants > 2 then
      [{ type := "consistency", severity := .suggestion,
         message := "Consider using fewer card variants for visual consistency" }]
    else []
  sizeIssues ++ variantIssues

/-- `DesignCriticAgent.calculateScore`. -/
def calculateScore (feedback : DesignFeedback) : Int :=
  let score : Int := feedback.issues.foldl (fun s i => s - severityPenalty i.severity) 100
  let score :=
    if feedback.improvements.length > 0 && feedback.improvements.length ≤ 3 then
      min 100 (score + 5)
    else score
  max 0 score

/-- The indexed `forEach` over components of `analyzeDesign`. -/
def checkComponentsFrom : List ComponentSpec → Nat →
    Except String (List DesignIssue × List Improvement)
  | [], _ => .ok ([], [])
  | c :: rest, i => do
    let (is1, imp1) ← checkComponent c i
    let (is2, imp2) ← checkComponentsFrom rest (i + 1)
    .ok (is1 ++ is2, imp1 ++ imp2)

/-- `DesignCriticAgent.analyzeDesign`. -/
def analyzeDesign (ui : UISpec) : Except String DesignFeedback := do
  let (compIssues, compImps) ← checkComponentsFrom ui.components 0
  let (layIssues, layImps) := checkLayout ui
  let consIssues := checkConsistency ui.components
  let feedback : DesignFeedback :=
    { score := 100,
      issues := compIssues ++ layIssues ++ consIssues,
      improvements := compImps ++ layImps }
  .ok { feedback with score := calculateScore feedback }

/-- `DesignCriticAgent.applyImprovements`: deep-clone then merge each
improvement with proposed props into the component at its index; an
out-of-range index leaves the list unchanged (`if (component)` guard). -/
def applyImprovements (ui : UISpec) (feedback : DesignFeedback) : UISpec :=
  { ui with
    components := feedback.improvements.foldl (fun comps imp =>
      match imp.proposedProps with
      | some patch =>
        comps.mapIdx (fun i c =>
          if i == imp.componentIndex then { c with props := mergeProps c.props patch } else c)
      | none => comps) ui.components }

/-- Payload of the design critic response: the blocking branch returns the
raw `DesignFeedback` as `data`, the success branch returns a
`\x7b feedback, improvedUI \x7d` object. -/
inductive ReviewData where
  | feedbackOnly (fb : DesignFeedback)
  | withImproved (fb : DesignFeedback) (improvedUI : UISpec)

/-- Agent response of `DesignCriticAgent.review`. -/
structure ReviewResponse where
  success : Bool
  data : Option ReviewData
  errors : List AgentError
  suggestions : List String

/-- `DesignCriticAgent.review`: the `try/catch` around `analyzeDesign` maps a
raised `TypeError` to a `REVIEW_ERROR` response. -/
def review (ui : UISpec) : ReviewResponse :=
  match analyzeDesign ui with
  | .error e =>
    { success := false, data := none,
      errors := [{ code := "REVIEW_ERROR", message := e }], suggestions := [] }
  | .ok feedback =>
    let numCrit := (feedback.issues.filter (fun i => i.severity == Severity.error)).length
    if feedback.issues.any (fun i => i.severity == Severity.error) then
      { success := false, data := some (.feedbackOnly feedback),
        errors := [{ code := "DESIGN_ISSUES",
                     message := "Found " ++ toString numCrit ++ " critical design issues" }],
        suggestions := feedback.improvements.map (fun i => i.suggestion) }
    else
      { success := true,
        data := some (.withImproved feedback (applyImprovements ui feedback)),
        errors := [], suggestions := [] }

end DesignCritic

namespace A11y

/-- Score penalty per violation impact of `calculateA11yScore`. -/
def impactPenalty : Impact → Int
  | .critical => 25
  | .serious => 15
  | .moderate => 10
  | .minor => 5

/-- `fields.flatMap((s) => s.fields || [])`: flattening of form sections;
reading `.fields` off a `null` section raises a `TypeError`, and a truthy
non-array `fields` value stays as a single element. -/
def flattenSections : List JValue → Except String (List JValue)
  | [] => .ok []
  | s :: rest => do
    let part ←
      match s with
      | .null => .error "TypeError: Cannot read properties of null (reading fields)"
      | _ =>
        .ok (match jGetV s "fields" with
             | some (.arr ys) => ys
             | some v => if v.truthy then [v] else []
             | none => [])
    let restFlat ← flattenSections rest
    .ok (part ++ restFlat)

/-- `Array.isArray(fields[0]?.fields) ? fields.flatMap(...) : fields`. -/
def flatFieldsE (xs : List JValue) : Except String (List JValue) :=
  match xs.head? with
  | some h =>
    match jGetV h "fields" with
    | some (.arr _) => flattenSections xs
    | _ => .ok xs
  | none => .ok xs

/-- Checks on one flattened form field (indexed `forEach` body); reading a
property off a `null` field raises a `TypeError`. -/
def checkField (field : JValue) (fieldIndex : Nat) (index : Nat) :
    Except String (List Violation × List A11yWarning) :=
  match field with
  | .null => .error "TypeError: Cannot read properties of null (reading label)"
  | _ =>
    let labelV := jGetV field "label"
    let fieldName := jsToStringOpt (jGetV field "name")
    let vs : List Violation :=
      if !truthyOpt labelV && !truthyOpt (jGetV field "aria-label") then
        [{ rule := "form-field-label", impact := .critical,
           description := "Form field \"" ++ fieldName ++ "\" at index " ++
             toString fieldIndex ++ " has no label",
           fix := "Add label prop to field \"" ++ fieldName ++ "\"",
           componentIndex := some index }]
      else []
    let ws : List A11yWarning :=
      if truthyOpt (jGetV field "required") &&
          (match labelV with
           | none => true
           | some .null => true
           | some l => !(strContains (jsToString l) "*")) then
        [{ rule := "required-indication",
           description := "Required field \"" ++ fieldName ++
             "\" doesn't visually indicate requirement",
           recommendation := "Required fields should be visually indicated (e.g., asterisk)" }]
      else []
    .ok (vs, ws)

/-- Indexed `forEach` over the flattened form fields. -/
def checkFieldsFrom : List JValue → Nat → Nat →
    Except String (List Violation × List A11yWarning)
  | [], _, _ => .ok ([], [])
  | f :: rest, fieldIndex, index => do
    let (v1, w1) ← checkField f fieldIndex index
    let (v2, w2) ← checkFieldsFrom rest (fieldIndex + 1) index
    .ok (v1 ++ v2, w1 ++ w2)

/-- Indexed `forEach` over testimonials. -/
def checkTestimonialsFrom : List JValue → Nat → Except String (List A11yWarning)
  | [], _ => .ok []
  | t :: rest, tIndex => do
    let ws ←
      match t with
      | .null => .error "TypeError: Cannot read properties of null (reading authorAvatarUrl)"
      | _ =>
        .ok (if truthyOpt (jGetV t "authorAvatarUrl") && !truthyOpt (jGetV t "authorName") then
              [{ rule := "image-alt",
                 description := "Testimonial " ++ toString tIndex ++
                   " has avatar without author name for alt text",
                 recommendation := "Ensure authorName is provided for avatar alt text" }]
            else [])
    let rest' ← checkTestimonialsFrom rest (tIndex + 1)
    .ok (ws ++ rest')

/-- Indexed `forEach` over dashboard sidebar navigation items. -/
def checkNavItemsFrom : List JValue → Nat → Nat → Except String (List Violation)
  | [], _, _ => .ok []
  | item :: rest, itemIndex, index => do
    let vs ←
      match item with
      | .null => .error "TypeError: Cannot read properties of null (reading icon)"
      | _ =>
        .ok (if truthyOpt (jGetV item "icon") && !truthyOpt (jGetV item "label") then
              [{ rule := "nav-item-label", impact := .serious,
                 description := "Navigation item " ++ toString itemIndex ++
                   " has icon but no label",
                 fix := "Add label prop to navigation item",
                 componentIndex := some index }]
            else [])
    let rest' ← checkNavItemsFrom rest (itemIndex + 1) index
    .ok (vs ++ rest')

/-- `AccessibilityAgent.checkComponentAccessibility`: rule checks for one
component; calling an array method on a truthy non-array raises a
`TypeError`, modelled as `Except.error`. -/
def checkComponentAccessibility (c : ComponentSpec) (index : Nat) :
    Except String (List Violation × List A11yWarning) := do
  let props := c.props
  let buttonVs : List Violation :=
    if c.name == "Button" then
      (if propTruthy props "iconOnly" && !propTruthy props "ariaLabel" &&
          !propTruthy props "aria-label" then
        [{ rule := "button-name", impact := .critical,
           description := "Button at index " ++ toString index ++
             " is icon-only without accessible name",
           fix := "Add ariaLabel prop to the Button component",
           componentIndex := some index }]
      else []) ++
      (if !propTruthy props "iconOnly" && !propTruthy props "text" &&
          !propTruthy props "children" then
        [{ rule := "button-name", impact := .critical,
           description := "Button at index " ++ toString index ++ " has no text content",
           fix := "Add text prop or children to the Button",
           componentIndex := some index }]
      else [])
    else []
  let form : List Violation × List A11yWarning ←
    if c.name == "Form" then
      match (if propTruthy props "fields" then jGet props "fields" else jGet props "sections") with
      | some v =>
        if v.truthy then
          match v with
          | .arr xs => do
            let flat ← flatFieldsE xs
            checkFieldsFrom flat 0 index
          | _ => .error "TypeError: flatFields.forEach is not a function"
        else .ok ([], [])
      | none => .ok ([], [])
    else .ok ([], [])
  let modalVs : List Violation :=
    if c.name == "Modal" then
      (if !propTruthy props "title" && !propTruthy props "aria-label" &&
          !propTruthy props "ariaLabel" then
        [{ rule := "modal-name", impact := .serious,
           description := "Modal at index " ++ toString index ++ " has no accessible name",
           fix := "Add title or aria-label prop to the Modal",
           componentIndex := some index }]
      else []) ++
      (if jEqPrim (jGet props "showCloseButton") (.bool false) &&
          !propTruthy props "closeOnEscape" && !propTruthy props "closeOnOverlayClick" then
        [{ rule := "modal-escape", impact := .serious,
           description := "Modal at index " ++ toString index ++ " has no way to close",
           fix := "Enable at least one close mechanism: showCloseButton, closeOnEscape, or closeOnOverlayClick",
           componentIndex := some index }]
      else [])
    else []
  let cardWs : List A11yWarning :=
    if c.name == "Card" && propTruthy props "clickable" && !propTruthy props "href" &&
        !propTruthy props "onClick" then
      [{ rule := "card-interactive",
         description := "Clickable card at index " ++ toString index ++
           " should have clear interactive purpose",
         recommendation := "Add href or ensure onClick handles keyboard events" }]
    else []
  let cardVs : List Violation :=
    if c.name == "Card" && propTruthy props "imageUrl" && !propTruthy props "imageAlt" then
      [{ rule := "image-alt", impact := .serious,
         description := "Card image at index " ++ toString index ++ " has no alt text",
         fix := "Add imageAlt prop with descriptive text",
         componentIndex := some index }]
    else []
  let chartVs : List Violation :=
    if c.name == "Chart" && !propTruthy props "title" && !propTruthy props "aria-label" then
      [{ rule := "chart-label", impact := .serious,
         description := "Chart at index " ++ toString index ++ " has no accessible label",
         fix := "Add title or aria-label to describe the chart data",
         componentIndex := some index }]
    else []
  let testWs : List A11yWarning ←
    if c.name == "TestimonialSection" then
      match jGet props "testimonials" with
      | some v =>
        if v.truthy then
          match v with
          | .arr xs => checkTestimonialsFrom xs 0
          | _ => .error "TypeError: testimonials.forEach is not a function"
        else .ok []
      | none => .ok []
    else .ok []
  let navVs : List Violation ←
    if c.name == "DashboardLayout" then
      match jGet props "sidebar" with
      | some sidebar =>
        if sidebar.truthy then
          match jGetV sidebar "navItems" with
          | some nv =>
            if nv.truthy then
              match nv with
              | .arr items => checkNavItemsFrom items 0 index
              | _ => .error "TypeError: navItems.forEach is not a function"
            else .ok []
          | none => .ok []
        else .ok []
      | none => .ok []
    else .ok []
  .ok (buttonVs ++ form.1 ++ modalVs ++ cardVs ++ chartVs ++ navVs,
       form.2 ++ cardWs ++ testWs)

/-- `AccessibilityAgent.checkPageStructure`: page-level warnings. -/
def checkPageStructure (ui : UISpec) : List A11yWarning :=
  let landmark : List A11yWarning :=
    if !ui.components.any (fun c => c.name == "DashboardLayout") then
      [{ rule := "landmark-main",
         description := "Consider using semantic landmarks for page structure",
         recommendation := "Wrap content in main, nav, aside elements as appropriate" }]
    else []
  let hasHeadings := ui.components.any (fun c =>
    propTruthy c.props "title" || propTruthy c.props "headline")
  let headings : List A11yWarning :=
    if !hasHeadings && ui.components.length > 0 then
      [{ rule := "heading-structure",
         description := "Page may lack proper heading structure",
         recommendation := "Add headings to organize content hierarchically" }]
    else []
  landmark ++ headings

/-- `AccessibilityAgent.calculateA11yScore`. -/
def calculateA11yScore (violations : List Violation) (warnings : List A11yWarning) : Int :=
  let score : Int := violations.foldl (fun s v => s - impactPenalty v.impact) 100
  let score := warnings.foldl (fun s _ => s - 2) score
  max 0 score

/-- The indexed `forEach` over components of `runAccessibilityChecks`. -/
def checkComponentsFrom : List ComponentSpec → Nat →
    Except String (List Violation × List A11yWarning)
  | [], _ => .ok ([], [])
  | c :: rest, i => do
    let (v1, w1) ← checkComponentAccessibility c i
    let (v2, w2) ← checkComponentsFrom rest (i + 1)
    .ok (v1 ++ v2, w1 ++ w2)

/-- `AccessibilityAgent.runAccessibilityChecks`. -/
def runAccessibilityChecks (ui : UISpec) : Except String AccessibilityReport := do
  let (violations, compWarnings) ← checkComponentsFrom ui.components 0
  let warnings := compWarnings ++ checkPageStructure ui
  .ok { passed := countCritical violations == 0,
        score := calculateA11yScore violations warnings,
        violations := violations,
        warnings := warnings }

/-- The per-violation auto-fix body of `applyAccessibilityFixes`. -/
def fixComponent (c : ComponentSpec) (v : Violation) : ComponentSpec :=
  let props := c.props
  let props :=
    if v.rule == "button-name" && propTruthy props "iconOnly" then
      setProp props "ariaLabel"
        (.str ((if propTruthy props "icon" then jsToStringOpt (jGet props "icon") else "Action") ++ " button"))
    else props
  let props :=
    if v.rule == "modal-name" && !propTruthy props "title" then
      setProp props "aria-label" (.str "Dialog")
    else props
  let props :=
    if v.rule == "image-alt" && propTruthy props "imageUrl" then
      setProp props "imageAlt"
        (.str (if propTruthy props "title" then jsToStringOpt (jGet props "title") else "Image"))
    else props
  let props :=
    if v.rule == "chart-label" then
      setProp props "aria-label"
        (.str ("Chart: " ++
          (if propTruthy props "subtitle" then jsToStringOpt (jGet props "subtitle")
           else "Data visualization")))
    else props
  { c with props := props }

/-- `AccessibilityAgent.applyAccessibilityFixes`: deep-clone, then apply each
violation's heuristic fix to the component at its index; a missing index or
an out-of-range index leaves the list unchanged. -/
def applyAccessibilityFixes (ui : UISpec) (report : AccessibilityReport) : UISpec :=
  { ui with
    components := report.violations.foldl (fun comps v =>
      match v.componentIndex with
      | none => comps
      | some idx => comps.mapIdx (fun i c => if i == idx then fixComponent c v else c))
      ui.components }

/-- Agent response of `AccessibilityAgent.validate`. -/
structure ValidateResponse where
  success : Bool
  report : Option AccessibilityReport
  fixedUI : Option UISpec
  errors : List AgentError
  suggestions : List String

/-- `AccessibilityAgent.validate`: the `try/catch` around the checks maps a
raised `TypeError` to a `VALIDATION_ERROR` response; otherwise the response
fails exactly when critical violations remain. -/
def validate (ui : UISpec) : ValidateResponse :=
  match runAccessibilityChecks ui with
  | .error e =>
    { success := false, report := none, fixedUI := none,
      errors := [{ code := "VALIDATION_ERROR", message := e }], suggestions := [] }
  | .ok report =>
    let fixedUI := applyAccessibilityFixes ui report
    let criticalViolations := report.violations.filter (fun v => v.impact == Impact.critical)
    if criticalViolations.length > 0 then
      { success := false, report := some report, fixedUI := some fixedUI,
        errors := criticalViolations.map (fun v =>
          { code := "A11Y_" ++ toUpperStr v.rule, message := v.description }),
        suggestions := criticalViolations.map (fun v => v.fix) }
    else
      { success := true, report := some report, fixedUI := some fixedUI,
        errors := [], suggestions := [] }

end A11y

namespace Architect

/-- Result of `UIArchitectAgent.analyzeRequestType`. -/
inductive RequestType where
  | create
  | modify
  | unknown
deriving DecidableEq, Repr

/-- Trigger words for modification requests. -/
def modifyKeywords : List String :=
  ["change", "update", "modify", "make it", "add to",
   "remove", "improve", "fix", "adjust", "tweak",
   "instead", "replace", "bigger", "smaller", "more"]

/-- Trigger words for creation requests. -/
def createKeywords : List String :=
  ["create", "build", "make", "generate", "design",
   "new", "start", "begin", "i want", "i need"]

/-- `UIArchitectAgent.analyzeRequestType`. -/
def analyzeRequestType (message : String) (currentUI : Option UISpec) : RequestType :=
  let lowerMessage := toLowerStr message
  let hasModifyKeyword := modifyKeywords.any (fun k => strContains lowerMessage k)
  let hasCreateKeyword := createKeywords.any (fun k => strContains lowerMessage k)
  if hasModifyKeyword && currentUI.isSome then .modify
  else if hasCreateKeyword || currentUI.isNone then .create
  else if currentUI.isSome then .modify
  else .create

/-- The fixed keyword-to-topic table of `extractKeywords`. -/
def componentKeywordTable : List (String × List String) :=
  [("button", ["button", "cta", "action", "click", "submit"]),
   ("card", ["card", "container", "box", "section", "panel"]),
   ("pricing", ["pricing", "plans", "tiers", "subscription", "cost"]),
   ("dashboard", ["dashboard", "admin", "panel", "analytics", "stats"]),
   ("chart", ["chart", "graph", "data", "visualization", "metrics"]),
   ("form", ["form", "input", "submit", "contact", "sign up", "login"]),
   ("modal", ["modal", "dialog", "popup", "overlay", "confirm"]),
   ("testimonial", ["testimonial", "review", "quote", "feedback", "customer"])]

/-- The fixed style keyword list of `extractKeywords`. -/
def styleKeywords : List String :=
  ["modern", "minimal", "clean", "professional", "vibrant", "dark", "light"]

/-- Topic keys matched by the description (first loop of `extractKeywords`). -/
def componentTopics (description : String) : List String :=
  let lowerDesc := toLowerStr description
  componentKeywordTable.filterMap (fun kv =>
    if kv.2.any (fun term => strContains lowerDesc term) then some kv.1 else none)

/-- Style keys matched by the description (second loop of `extractKeywords`). -/
def styleTopics (description : String) : List String :=
  let lowerDesc := toLowerStr description
  styleKeywords.filterMap (fun st =>
    if strContains lowerDesc st then some ("style:" ++ st) else none)

/-- `UIArchitectAgent.extractKeywords`. -/
def extractKeywords (description : String) : List String :=
  componentTopics description ++ styleTopics description

/-- `UIArchitectAgent.createButtonSpec`. -/
def createButtonSpec (description : String) : ComponentSpec :=
  let lowerDesc := toLowerStr description
  let text :=
    if strContains lowerDesc "contact" then "Contact Us"
    else if strContains lowerDesc "sign up" then "Sign Up"
    else if strContains lowerDesc "learn more" then "Learn More"
    else if strContains lowerDesc "try" then "Try for Free"
    else "Get Started"
  { name := "Button",
    props := [("text", .str text), ("variant", .str "solid"),
              ("color", .str "primary"), ("size", .str "lg")],
    metadata := some { reason := some "Primary call-to-action button" } }

/-- `UIArchitectAgent.createCardSpec`. -/
def createCardSpec (description : String) : ComponentSpec :=
  let lowerDesc := toLowerStr description
  let variant :=
    if strContains lowerDesc "modern" || strContains lowerDesc "glass" then "glass"
    else if strContains lowerDesc "gradient" then "gradient"
    else "elevated"
  { name := "Card",
    props := [("variant", .str variant), ("title", .str "Welcome"),
              ("content", .str "Your content goes here. Describe your product or service."),
              ("hoverable", .bool true), ("size", .str "lg")],
    metadata := some { reason := some "Content container for hero or feature section" } }

/-- One feature entry of the pricing template. -/
def pricingFeature (text : String) (included : Bool) : JValue :=
  .obj [("text", .str text), ("included", .bool included)]

/-- `UIArchitectAgent.createPricingTableSpec` (fixed template). -/
def createPricingTableSpec (_description : String) : ComponentSpec :=
  { name := "PricingTable",
    props := [
      ("headline", .str "Choose Your Plan"),
      ("subheadline", .str "Select the perfect plan for your needs"),
      ("tiers", .arr [
        .obj [("id", .str "starter"), ("name", .str "Starter"), ("price", .num 9),
              ("currency", .str "USD"), ("billingPeriod", .str "month"),
              ("description", .str "Perfect for getting started"),
              ("features", .arr [pricingFeature "5 Projects" true,
                                 pricingFeature "Basic Support" true,
                                 pricingFeature "1GB Storage" true,
                                 pricingFeature "API Access" false]),
              ("ctaText", .str "Get Started")],
        .obj [("id", .str "pro"), ("name", .str "Professional"), ("price", .num 29),
              ("currency", .str "USD"), ("billingPeriod", .str "month"),
              ("description", .str "Best for professionals"),
              ("features", .arr [pricingFeature "Unlimited Projects" true,
                                 pricingFeature "Priority Support" true,
                                 pricingFeature "10GB Storage" true,
                                 pricingFeature "API Access" true]),
              ("ctaText", .str "Start Free Trial"),
              ("featured", .bool true), ("badge", .str "Most Popular")],
        .obj [("id", .str "enterprise"), ("name", .str "Enterprise"), ("price", .num 99),
              ("currency", .str "USD"), ("billingPeriod", .str "month"),
              ("description", .str "For large organizations"),
              ("features", .arr [pricingFeature "Unlimited Everything" true,
                                 pricingFeature "24/7 Support" true,
                                 pricingFeature "Unlimited Storage" true,
                                 pricingFeature "Custom Integrations" true]),
              ("ctaText", .str "Contact Sales")]]),
      ("showBillingToggle", .bool true),
      ("yearlyDiscount", .num 20)],
    metadata := some { reason := some "Pricing table for SaaS subscription plans" } }

/-- `UIArchitectAgent.createDashboardSpec` (fixed template). -/
def createDashboardSpec (_description : String) : ComponentSpec :=
  { name := "DashboardLayout",
    props := [
      ("sidebar", .obj [
        ("title", .str "Dashboard"),
        ("navItems", .arr [
          .obj [("id", .str "home"), ("label", .str "Home"), ("icon", .str "home"),
                ("href", .str "/"), ("active", .bool true)],
          .obj [("id", .str "analytics"), ("label", .str "Analytics"),
                ("icon", .str "bar-chart"), ("href", .str "/analytics")],
          .obj [("id", .str "projects"), ("label", .str "Projects"),
                ("icon", .str "folder"), ("href", .str "/projects")],
          .obj [("id", .str "settings"), ("label", .str "Settings"),
                ("icon", .str "settings"), ("href", .str "/settings")]]),
        ("collapsible", .bool true),
        ("showUserProfile", .bool true),
        ("userInfo", .obj [("name", .str "John Doe"), ("email", .str "john@example.com")])]),
      ("showSidebar", .bool true),
      ("header", .obj [("title", .str "Overview"), ("showSearch", .bool true),
                       ("showNotifications", .bool true), ("showUserMenu", .bool true)]),
      ("showHeader", .bool true),
      ("pageTitle", .str "Dashboard"),
      ("contentPadding", .str "md")],
    metadata := some { reason := some "Dashboard layout with navigation sidebar and header" } }

/-- `UIArchitectAgent.createChartSpec` (fixed template). -/
def createChartSpec (_description : String) : ComponentSpec :=
  { name := "Chart",
    props := [
      ("type", .str "line"),
      ("title", .str "Performance Overview"),
      ("subtitle", .str "Last 6 months"),
      ("data", .arr [
        .obj [("name", .str "Jan"), ("value", .num 1200)],
        .obj [("name", .str "Feb"), ("value", .num 1900)],
        .obj [("name", .str "Mar"), ("value", .num 1500)],
        .obj [("name", .str "Apr"), ("value", .num 2400)],
        .obj [("name", .str "May"), ("value", .num 2100)],
        .obj [("name", .str "Jun"), ("value", .num 2800)]]),
      ("showLegend", .bool true),
      ("showGrid", .bool true),
      ("animated", .bool true),
      ("colorScheme", .str "default")],
    metadata := some { reason := some "Data visualization chart" } }

/-- `UIArchitectAgent.createFormSpec` (fixed template). -/
def createFormSpec (_description : String) : ComponentSpec :=
  { name := "Form",
    props := [
      ("title", .str "Contact Us"),
      ("description", .str "Fill out the form below and we'll get back to you"),
      ("fields", .arr [
        .obj [("id", .str "name"), ("name", .str "name"), ("type", .str "text"),
              ("label", .str "Full Name"), ("placeholder", .str "John Doe"),
              ("required", .bool true)],
        .obj [("id", .str "email"), ("name", .str "email"), ("type", .str "email"),
              ("label", .str "Email"), ("placeholder", .str "john@example.com"),
              ("required", .bool true)],
        .obj [("id", .str "message"), ("name", .str "message"), ("type", .str "textarea"),
              ("label", .str "Message"), ("placeholder", .str "How can we help?"),
              ("required", .bool true)]]),
      ("submitText", .str "Send Message"),
      ("showSubmitButton", .bool true),
      ("showValidationOnBlur", .bool true)],
    metadata := some { reason := some "Contact or input form" } }

/-- `UIArchitectAgent.createModalSpec` (fixed template). -/
def createModalSpec (_description : String) : ComponentSpec :=
  { name := "Modal",
    props := [
      ("title", .str "Confirm Action"),
      ("description", .str "Are you sure you want to proceed?"),
      ("variant", .str "default"),
      ("size", .str "md"),
      ("showCloseButton", .bool true),
      ("primaryAction", .obj [("text", .str "Confirm"), ("variant", .str "solid")]),
      ("secondaryAction", .obj [("text", .str "Cancel"), ("variant", .str "outline")]),
      ("isOpen", .bool true)],
    metadata := some { reason := some "Modal dialog for confirmations or focused content" } }

/-- `UIArchitectAgent.createTestimonialSpec` (fixed template). -/
def createTestimonialSpec (_description : String) : ComponentSpec :=
  { name := "TestimonialSection",
    props := [
      ("headline", .str "What Our Customers Say"),
      ("subheadline", .str "Don't just take our word for it"),
      ("testimonials", .arr [
        .obj [("id", .str "1"),
              ("quote", .str "This product has completely transformed how we work. Highly recommended!"),
              ("authorName", .str "Sarah Johnson"), ("authorRole", .str "CEO"),
              ("authorCompany", .str "TechCorp"), ("rating", .num 5)],
        .obj [("id", .str "2"),
              ("quote", .str "The best investment we've made this year. The results speak for themselves."),
              ("authorName", .str "Michael Chen"), ("authorRole", .str "Director of Operations"),
              ("authorCompany", .str "StartupXYZ"), ("rating", .num 5)],
        .obj [("id", .str "3"),
              ("quote", .str "Incredible support team and a product that just works. Love it!"),
              ("authorName", .str "Emily Brown"), ("authorRole", .str "Product Manager"),
              ("authorCompany", .str "InnovateCo"), ("rating", .num 5)]]),
      ("layout", .str "grid"),
      ("columns", .num 3),
      ("showRatings", .bool true),
      ("showAvatars", .bool true),
      ("cardStyle", .str "elevated")],
    metadata := some { reason := some "Customer testimonials for social proof" } }

/-- `UIArchitectAgent.selectComponents`. -/
def selectComponents (keywords : List String) (description : String) : List ComponentSpec :=
  let lowerDesc := toLowerStr description
  let components :=
    if keywords.contains "pricing" then [createPricingTableSpec description] else []
  let components := components ++
    (if keywords.contains "dashboard" then [createDashboardSpec description] else [])
  let components := components ++
    (if keywords.contains "chart" then [createChartSpec description] else [])
  let components := components ++
    (if keywords.contains "form" then [createFormSpec description] else [])
  let components := components ++
    (if keywords.contains "modal" then [createModalSpec description] else [])
  let components := components ++
    (if keywords.contains "testimonial" then [createTestimonialSpec description] else [])
  let components := components ++
    (if keywords.contains "card" || strContains lowerDesc "hero" ||
        strContains lowerDesc "feature" then
      [createCardSpec description]
    else [])
  let components := components ++
    (if components.length > 0 &&
        (strContains lowerDesc "landing" || strContains lowerDesc "hero" ||
         strContains lowerDesc "cta") then
      [createButtonSpec description]
    else [])
  if components.length == 0 then
    [createCardSpec description, createButtonSpec description]
  else components

/-- `UIArchitectAgent.determineLayout`. -/
def determineLayout (components : List ComponentSpec) : LayoutSpec :=
  let hasFullWidth := components.any (fun c =>
    c.name == "DashboardLayout" || c.name == "PricingTable")
  if hasFullWidth then
    { type := some "stack", spacing := some "0" }
  else
    { type := some "stack", spacing := some "2rem", maxWidth := some "1200px" }

/-- `UIArchitectAgent.generateUIName`. -/
def generateUIName (description : String) : String :=
  let lowerDesc := toLowerStr description
  if strContains lowerDesc "pricing" then "Pricing Page"
  else if strContains lowerDesc "dashboard" then "Dashboard"
  else if strContains lowerDesc "landing" then "Landing Page"
  else if strContains lowerDesc "hero" then "Hero Section"
  else if strContains lowerDesc "contact" then "Contact Form"
  else if strContains lowerDesc "testimonial" then "Testimonials Section"
  else "Generated UI"

/-- `UIArchitectAgent.createNewUI`; `freshId` stands for the generated uuid
and `now` for the current `toISOString` clock reading. -/
def createNewUI (freshId now : String) (description : String) : UISpec :=
  let keywords := extractKeywords description
  let components := selectComponents keywords description
  { id := freshId,
    name := some (generateUIName description),
    description := some description,
    components := components,
    layout := some (determineLayout components),
    metadata := some { createdAt := some now, version := some 1 } }

/-- Action tag of one modification. -/
inductive ModAction where
  | add
  | remove
  | update
  | replace
deriving DecidableEq, Repr

/-- One entry of the modification list built by `determineModifications`. -/
structure Modification where
  action : ModAction
  componentIndex : Option Nat := none
  component : Option ComponentSpec := none
  props : Option Props := none

/-- `UIArchitectAgent.determineModifications`. -/
def determineModifications (request : String) (_keywords : List String) : List Modification :=
  let lowerRequest := toLowerStr request
  (if strContains lowerRequest "more modern" || strContains lowerRequest "modern" then
    [{ action := .update, componentIndex := some 0,
       props := some [("variant", .str "glass")] }]
  else []) ++
  (if strContains lowerRequest "bigger" || strContains lowerRequest "larger" then
    [{ action := .update, componentIndex := some 0,
       props := some [("size", .str "xl")] }]
  else []) ++
  (if strContains lowerRequest "smaller" then
    [{ action := .update, componentIndex := some 0,
       props := some [("size", .str "sm")] }]
  else []) ++
  (if strContains lowerRequest "add button" || strContains lowerRequest "add cta" then
    [{ action := .add, component := some (createButtonSpec request) }]
  else []) ++
  (if strContains lowerRequest "add testimonial" then
    [{ action := .add, component := some (createTestimonialSpec request) }]
  else [])

/-- One iteration of the modification loop in `modifyExistingUI`.  The
`update` branch writes `components[i].props` and raises a `TypeError` when
the index is out of range; `remove` uses `splice` (no-op out of range);
`replace` is never produced by `determineModifications`, and its in-range
behaviour is plain assignment (the out-of-range sparse-array extension of JS
has no counterpart here and leaves the list unchanged). -/
def applyOneMod (ui : UISpec) (m : Modification) : Except String UISpec :=
  match m.action with
  | .add =>
    match m.component with
    | some c => .ok { ui with components := ui.components ++ [c] }
    | none => .ok ui
  | .remove =>
    match m.componentIndex with
    | some idx => .ok { ui with components := ui.components.eraseIdx idx }
    | none => .ok ui
  | .update =>
    match m.componentIndex, m.props with
    | some idx, some patch =>
      if idx < ui.components.length then
        .ok { ui with components := ui.components.mapIdx (fun i c =>
          if i == idx then { c with props := mergeProps c.props patch } else c) }
      else
        .error "TypeError: Cannot set properties of undefined (setting props)"
    | _, _ => .ok ui
  | .replace =>
    match m.componentIndex, m.component with
    | some idx, some c => .ok { ui with components := ui.components.set idx c }
    | _, _ => .ok ui

/-- The modification loop of `modifyExistingUI`. -/
def applyMods : UISpec → List Modification → Except String UISpec
  | ui, [] => .ok ui
  | ui, m :: rest => do
    let ui' ← applyOneMod ui m
    applyMods ui' rest

/-- `UIArchitectAgent.modifyExistingUI`: deep-clone the current UI, reissue
its id, bump its version, then apply the derived modifications in order. -/
def modifyExistingUI (freshId now : String) (request : String) (currentUI : UISpec) :
    Except String UISpec :=
  let keywords := extractKeywords request
  let modifications := determineModifications request keywords
  let newUI : UISpec :=
    { currentUI with
      id := freshId,
      metadata := some
        { createdAt := currentUI.metadata.bind (fun m => m.createdAt),
          updatedAt := some now,
          version := some (((currentUI.metadata.bind (fun m => m.version)).getD 0) + 1) } }
  applyMods newUI modifications

/-- Result of the architect agent's `processRequest`. -/
inductive ArchitectResult where
  | ok (spec : UISpec)
  | err (code : String) (message : String)

/-- The error code of an architect result, if any. -/
def ArchitectResult.errCode : ArchitectResult → Option String
  | .ok _ => none
  | .err code _ => some code

/-- The branch structure of `UIArchitectAgent.processRequest` after the
request has been classified (the `if requestType === ...` chain, with the
surrounding `try/catch` turning a raised `TypeError` into a
`PROCESSING_ERROR` response). -/
def handleClassified (rt : RequestType) (freshId now : String) (message : String)
    (currentUI : Option UISpec) : ArchitectResult :=
  match rt with
  | .create => .ok (createNewUI freshId now message)
  | .modify =>
    match currentUI with
    | none => .err "NO_EXISTING_UI" "No existing UI to modify. Please create a UI first."
    | some cur =>
      match modifyExistingUI freshId now message cur with
      | .ok ui => .ok ui
      | .error e => .err "PROCESSING_ERROR" e
  | .unknown =>
    .err "UNKNOWN_REQUEST"
      "Could not understand the request. Please describe what UI you want to create."

/-- `UIArchitectAgent.processRequest`. -/
def processRequest (freshId now : String) (message : String)
    (currentUI : Option UISpec) : ArchitectResult :=
  handleClassified (analyzeRequestType message currentUI) freshId now message currentUI

end Architect

namespace Orchestrator

/-- One file of an export package. -/
structure ExportFile where
  name : String
  content : String
  type : String

/-- Export output (`ExportPackage` in `src/agents/types.ts`). -/
structure ExportPackage where
  format : String
  files : List ExportFile
  instructions : String

/-- `OrchestratorOptions` with the source's defaults. -/
structure OrchestratorOptions where
  autoApplyDesignImprovements : Bool := true
  autoApplyAccessibilityFixes : Bool := true
  skipDesignReview : Bool := false
  skipAccessibilityCheck : Bool := false
  exportOnSuccess : Bool := true

/-- The pipeline result.  `errors` holds `(agent, code)` pairs and `actions`
the action tags of the `PipelineMessage`s logged before each stage call. -/
structure PipelineResult where
  success : Bool
  uiSpec : Option UISpec
  designFeedback : Option DesignFeedback
  accessibilityReport : Option AccessibilityReport
  exportPackage : Option ExportPackage
  errors : List (String × String)
  actions : List String

/-- Output of the design-critic step of `processRequest`. -/
structure CritiqueStepOut where
  ui : UISpec
  feedback : Option DesignFeedback
  errors : List (String × String)
  actions : List String

/-- Step 2 of `AgentOrchestrator.processRequest`: run the design critic
unless skipped.  The orchestrator reads `criticResponse.data` as a
`\x7b feedback, improvedUI \x7d` object, so the blocking branch (whose `data`
is the raw feedback) contributes neither a feedback value nor an improved
UI; a blocking critique is recorded as a non-fatal error and the pipeline
continues. -/
def runCritiqueStep (opts : OrchestratorOptions) (spec : UISpec) : CritiqueStepOut :=
  if opts.skipDesignReview then
    { ui := spec, feedback := none, errors := [], actions := [] }
  else
    let resp := DesignCritic.review spec
    let fbUi : Option DesignFeedback × UISpec :=
      match resp.data with
      | some (.withImproved fb improved) =>
        (some fb, if opts.autoApplyDesignImprovements then improved else spec)
      | some (.feedbackOnly _) => (none, spec)
      | none => (none, spec)
    let errs :=
      if resp.success then []
      else [("design-critic", ((resp.errors.head?).map (fun e => e.code)).getD "DESIGN_ISSUES")]
    { ui := fbUi.2, feedback := fbUi.1, errors := errs, actions := ["VALIDATE_DESIGN"] }

/-- Output of the accessibility step of `processRequest`. -/
structure A11yStepOut where
  ui : UISpec
  report : Option AccessibilityReport
  errors : List (String × String)
  actions : List String
  halt : Bool

/-- Step 3 of `AgentOrchestrator.processRequest`: run the accessibility agent
unless skipped; `halt` is the early-return condition — an unsuccessful
validation whose recorded report did not pass. -/
def runA11yStep (opts : OrchestratorOptions) (ui1 : UISpec) : A11yStepOut :=
  if opts.skipAccessibilityCheck then
    { ui := ui1, report := none, errors := [], actions := [], halt := false }
  else
    let resp := A11y.validate ui1
    let ui2 :=
      match resp.fixedUI with
      | some fixed => if opts.autoApplyAccessibilityFixes then fixed else ui1
      | none => ui1
    let errs :=
      if resp.success then []
      else [("accessibility", ((resp.errors.head?).map (fun e => e.code)).getD "A11Y_ISSUES")]
    let halt := !resp.success &&
      (match resp.report with
       | some rep => !rep.passed
       | none => false)
    { ui := ui2, report := resp.report, errors := errs,
      actions := ["VALIDATE_ACCESSIBILITY"], halt := halt }

/-- Step 4 of `AgentOrchestrator.processRequest`: the export engineer.  The
file `src/agents/export-engineer.ts` is not part of the corpus, so the stage
is an abstract parameter: `some` models a successful export response and
`none` a failed one, recorded as a non-fatal `EXPORT_FAILED` error (per §4.5
and §7 of the specification an export either yields a package or fails
non-fatally). -/
def runExportStep (exportStage : UISpec → Option ExportPackage)
    (opts : OrchestratorOptions) (ui2 : UISpec) :
    Option ExportPackage × List (String × String) × List String :=
  if opts.exportOnSuccess then
    match exportStage ui2 with
    | some pkg => (some pkg, [], ["EXPORT_CODE"])
    | none => (none, [("export-engineer", "EXPORT_FAILED")], ["EXPORT_CODE"])
  else (none, [], [])

/-- `AgentOrchestrator.processRequest`: the four-stage pipeline.  `freshId`
and `now` model the uuid and clock reading used by the architect stage. -/
def processRequestO (exportStage : UISpec → Option ExportPackage) (freshId now : String)
    (message : String) (currentUI : Option UISpec) (opts : OrchestratorOptions) :
    PipelineResult :=
  let actions0 := ["ANALYZE_REQUEST", "CREATE_UI"]
  match Architect.processRequest freshId now message currentUI with
  | .err code _ =>
    { success := false, uiSpec := none, designFeedback := none,
      accessibilityReport := none, exportPackage := none,
      errors := [("ui-architect", code)], actions := actions0 }
  | .ok spec =>
    let s2 := runCritiqueStep opts spec
    let s3 := runA11yStep opts s2.ui
    if s3.halt then
      { success := false, uiSpec := some s3.ui, designFeedback := s2.feedback,
        accessibilityReport := s3.report, exportPackage := none,
        errors := s2.errors ++ s3.errors,
        actions := actions0 ++ s2.actions ++ s3.actions }
    else
      let s4 := runExportStep exportStage opts s3.ui
      let errors := s2.errors ++ s3.errors ++ s4.2.1
      { success :=
          (errors.filter (fun e =>
            e.1 == "accessibility" && startsWithStr e.2 "A11Y_")).length == 0,
        uiSpec := some s3.ui, designFeedback := s2.feedback,
        accessibilityReport := s3.report, exportPackage := s4.1,
        errors := errors,
        actions := actions0 ++ s2.actions ++ s3.actions ++ s4.2.2 }

/-- `AgentOrchestrator.modifyUI`: fails with `NO_UI` when no current
specification exists, otherwise delegates to `processRequest`. -/
def modifyUIO (exportStage : UISpec → Option ExportPackage) (freshId now : String)
    (modificationRequest : String) (currentUI : Option UISpec)
    (opts : OrchestratorOptions) : PipelineResult :=
  match currentUI with
  | none =>
    { success := false, uiSpec := none, designFeedback := none,
      accessibilityReport := none, exportPackage := none,
      errors := [("orchestrator", "NO_UI")], actions := [] }
  | some _ => processRequestO exportStage freshId now modificationRequest currentUI opts

end Orchestrator

namespace ExportSrv

/-- Left curly brace as a string. -/
def jsLB : String := "\x7b"

/-- Right curly brace as a string. -/
def jsRB : String := "\x7d"

/-- Escaping of one character inside a JSON string literal. -/
def jsonEscapeChar (c : Char) : List Char :=
  if c = '"' then ['\\', '"']
  else if c = '\\' then ['\\', '\\']
  else if c = '\n' then ['\\', 'n']
  else if c = '\t' then ['\\', 't']
  else if c = '\r' then ['\\', 'r']
  else [c]

/-- A JSON string literal. -/
def jsonQuote (s : String) : String :=
  String.mk ('"' :: s.data.flatMap jsonEscapeChar ++ ['"'])

mutual

/-- `JSON.stringify(v, null, unit)` at current indentation `cur`. -/
def jStringifyInd (unit cur : String) : JValue → String
  | .null => "null"
  | .bool b => if b then "true" else "false"
  | .num n => toString n
  | .str s => jsonQuote s
  | .arr [] => "[]"
  | .arr xs => "[\n" ++ jStringifyItems unit (cur ++ unit) xs ++ "\n" ++ cur ++ "]"
  | .obj [] => jsLB ++ jsRB
  | .obj fs => jsLB ++ "\n" ++ jStringifyFields unit (cur ++ unit) fs ++ "\n" ++ cur ++ jsRB

/-- Array items of the indented serialization, one per line. -/
def jStringifyItems (unit cur : String) : List JValue → String
  | [] => ""
  | [x] => cur ++ jStringifyInd unit cur x
  | x :: rest => cur ++ jStringifyInd unit cur x ++ ",\n" ++ jStringifyItems unit cur rest

/-- Object fields of the indented serialization, one per line. -/
def jStringifyFields (unit cur : String) : List (String × JValue) → String
  | [] => ""
  | [kv] => cur ++ jsonQuote kv.1 ++ ": " ++ jStringifyInd unit cur kv.2
  | kv :: rest =>
    cur ++ jsonQuote kv.1 ++ ": " ++ jStringifyInd unit cur kv.2 ++ ",\n" ++
      jStringifyFields unit cur rest

end

/-- One component given to the export tools (`\x7b name, props \x7d`). -/
structure ExportComponent where
  name : String
  props : Props

/-- One rendered prop of `generatePageCode`: strings become quoted JSX
attributes, booleans become flags, numbers bare literals, everything else an
8-space-indented `JSON.stringify` with its lines re-indented. -/
def renderPagePropLine (kv : String × JValue) : String :=
  match kv.2 with
  | .str s => kv.1 ++ "=\"" ++ s ++ "\""
  | .bool b => if b then kv.1 else kv.1 ++ "=" ++ jsLB ++ "false" ++ jsRB
  | .num n => kv.1 ++ "=" ++ jsLB ++ toString n ++ jsRB
  | v => kv.1 ++ "=" ++ jsLB ++
      String.intercalate "\n        " ((jStringifyInd "        " "" v).splitOn "\n") ++ jsRB

/-- The joined prop lines of one component in `generatePageCode`. -/
def pagePropsString (props : Props) : String :=
  String.intercalate "\n        " (props.map renderPagePropLine)

/-- One component's JSX block in `generatePageCode`. -/
def pageComponentCode (c : ExportComponent) : String :=
  "      <" ++ c.name ++ "\n        " ++ pagePropsString c.props ++ "\n      />"

/-- `[...new Set(names)]`: deduplication keeping first occurrences. -/
def dedupFirst : List String → List String → List String
  | [], _ => []
  | x :: rest, seen =>
    if seen.contains x then dedupFirst rest seen
    else x :: dedupFirst rest (x :: seen)

/-- `generatePageCode` of the export MCP server. -/
def generatePageCode (components : List ExportComponent) (framework : String) : String :=
  let imports := String.intercalate ", " (dedupFirst (components.map (fun c => c.name)) [])
  let componentCode := String.intercalate "\n\n" (components.map pageComponentCode)
  if framework == "nextjs" then
    "\"use client\";\n\nimport " ++ jsLB ++ " " ++ imports ++ " " ++ jsRB ++
      " from \"@/components/generative\";\n\nexport default function GeneratedPage() " ++
      jsLB ++ "\n  return (\n    <main className=\"min-h-screen bg-slate-50 dark:bg-slate-950\">\n" ++
      componentCode ++ "\n    </main>\n  );\n" ++ jsRB
  else
    "import " ++ jsLB ++ " " ++ imports ++ " " ++ jsRB ++
      " from \"@/components/generative\";\n\nfunction GeneratedPage() " ++ jsLB ++
      "\n  return (\n    <main className=\"min-h-screen bg-slate-50 dark:bg-slate-950\">\n" ++
      componentCode ++ "\n    </main>\n  );\n" ++ jsRB ++ "\n\nexport default GeneratedPage;"

/-- `generateTailwindCSS` of the export MCP server: a fixed stylesheet,
independent of the components. -/
def generateTailwindCSS (_components : List ExportComponent) : String :=
  "/* Custom styles for generated components */\n\n/* Base component customizations */\n.generated-ui \x7b\n  @apply min-h-screen bg-slate-50 dark:bg-slate-950;\n\x7d\n\n/* Button customizations */\n.generated-button-primary \x7b\n  @apply bg-gradient-to-r from-violet-600 to-purple-600 text-white;\n  @apply hover:from-violet-700 hover:to-purple-700;\n  @apply shadow-lg shadow-violet-500/25;\n\x7d\n\n/* Card customizations */\n.generated-card \x7b\n  @apply bg-white dark:bg-slate-900;\n  @apply rounded-xl shadow-lg;\n  @apply border border-slate-200 dark:border-slate-800;\n\x7d\n\n/* Form customizations */\n.generated-form-input \x7b\n  @apply w-full px-4 py-2;\n  @apply border border-slate-200 dark:border-slate-700;\n  @apply rounded-lg bg-white dark:bg-slate-800;\n  @apply focus:ring-2 focus:ring-violet-500/50 focus:border-violet-500;\n\x7d\n\n/* Chart customizations */\n.generated-chart \x7b\n  @apply bg-white dark:bg-slate-900;\n  @apply rounded-xl border border-slate-200 dark:border-slate-800;\n  @apply p-6;\n\x7d\n\n/* Animation classes */\n@keyframes fade-in \x7b\n  from \x7b opacity: 0; \x7d\n  to \x7b opacity: 1; \x7d\n\x7d\n\n@keyframes slide-up \x7b\n  from \x7b \n    opacity: 0;\n    transform: translateY(20px);\n  \x7d\n  to \x7b \n    opacity: 1;\n    transform: translateY(0);\n  \x7d\n\x7d\n\n.animate-fade-in \x7b\n  animation: fade-in 0.3s ease-out;\n\x7d\n\n.animate-slide-up \x7b\n  animation: slide-up 0.4s ease-out;\n\x7d\n"

/-- The `export_json_schema` tool: serialized schema text; `now` models the
`new Date().toISOString()` clock reading embedded when `includeMetadata` is
set (its zod default is `true`). -/
def exportJsonSchema (components : List ExportComponent) (includeMetadata : Bool)
    (now : String) : String :=
  let base : List (String × JValue) :=
    [("$schema", .str "https://json-schema.org/draft/2020-12/schema"),
     ("title", .str "UI-Smith Generated UI"),
     ("version", .str "1.0.0")]
  let base :=
    if includeMetadata then
      base ++ [("metadata", .obj
        [("generatedAt", .str now),
         ("generatedBy", .str "UI-Smith"),
         ("componentCount", .num components.length)])]
    else base
  let schema : JValue := .obj (base ++
    [("components", .arr (components.mapIdx (fun i c =>
      .obj [("id", .str ("component-" ++ toString i)),
            ("type", .str c.name),
            ("props", .obj c.props)])))])
  jStringifyInd "  " "" schema

/-- The `generate_export_package` tool: the four generated files as
`(path, content)` pairs; `now` models the two `new Date().toISOString()`
clock readings embedded in the config file and the README. -/
def generateExportPackage (components : List ExportComponent) (projectName now : String) :
    List (String × String) :=
  let pageCode := generatePageCode components "nextjs"
  let css := generateTailwindCSS components
  let config : JValue := .obj
    [("name", .str projectName),
     ("version", .str "1.0.0"),
     ("generatedAt", .str now),
     ("components", .arr (components.map (fun c =>
       .obj [("name", .str c.name), ("props", .obj c.props)])))]
  let readme :=
    "# " ++ projectName ++
    "\n\nThis UI was generated with [UI-Smith](https://github.com/your-repo/ui-smith).\n\n## Components Used\n\n" ++
    String.intercalate "\n" (components.map (fun c => "- " ++ c.name)) ++
    "\n\n## Installation\n\n1. Copy the generated files to your project\n2. Ensure you have the required dependencies:\n\n```bash\nnpm install @tambo-ai/react framer-motion lucide-react recharts\n```\n\n3. Import and use the components in your app\n\n## Customization\n\nEdit `generated.css` to customize styles or modify the component props directly.\n\n---\nGenerated at " ++
    now ++ "\n"
  [(projectName ++ "/app/page.tsx", pageCode),
   (projectName ++ "/styles/generated.css", css),
   (projectName ++ "/ui-smith.config.json", jStringifyInd "  " "" config),
   (projectName ++ "/README.md", readme)]

end ExportSrv

/-! ## Theorems -/

set_option maxRecDepth 8000

/-- A report produced by `runAccessibilityChecks` has `passed = true`
exactly when it contains zero critical-impact violations. -/
theorem runChecks_passed_iff (ui : UISpec) (rep : AccessibilityReport)
    (h : A11y.runAccessibilityChecks ui = .ok rep) :
    rep.passed = true ↔ countCritical rep.violations = 0 := by
  unfold A11y.runAccessibilityChecks at h
  cases hc : A11y.checkComponentsFrom ui.components 0 with
  | error e => rw [hc] at h; simp [Bind.bind, Except.bind] at h
  | ok vw =>
    rw [hc] at h
    simp only [Bind.bind, Except.bind, Except.ok.injEq] at h
    subst h
    simp [beq_iff_eq]

/-- C1: for every specification whose accessibility checks complete, the
produced report has `passed = true` exactly when it contains zero
critical-impact violations; violations of any other impact never make
`passed` false. -/
theorem C1_passed_iff_no_critical (ui : UISpec) (rep : AccessibilityReport)
    (h : A11y.runAccessibilityChecks ui = .ok rep) :
    rep.passed = true ↔ countCritical rep.violations = 0 :=
  runChecks_passed_iff ui rep h

/-- Specification used to instantiate C1. -/
def c1Ui : UISpec := { id := "ui-1", components := [] }

/-- The report computed for `c1Ui`. -/
def c1Report : AccessibilityReport :=
  match A11y.runAccessibilityChecks c1Ui with
  | .ok rep => rep
  | .error _ => { passed := false, score := 0, violations := [], warnings := [] }

/-- Witness for C1 at the concrete specification `c1Ui`. -/
theorem C1_passed_iff_no_critical_witness :
    A11y.runAccessibilityChecks c1Ui = .ok c1Report ∧
      (c1Report.passed = true ↔ countCritical c1Report.violations = 0) :=
  ⟨rfl, C1_passed_iff_no_critical c1Ui c1Report rfl⟩

/-- C2: a request classified as a modification while no prior specification
exists makes the architect stage fail with the `NO_EXISTING_UI` error (and
produce no specification), and the orchestrator's `modifyUI` entry point with
no current specification fails with `NO_UI` and produces no specification —
a new specification is never silently created. -/
theorem C2_modify_without_prior_fails (freshId now msg : String)
    (es : UISpec → Option Orchestrator.ExportPackage)
    (opts : Orchestrator.OrchestratorOptions) :
    Architect.handleClassified .modify freshId now msg none =
      .err "NO_EXISTING_UI" "No existing UI to modify. Please create a UI first." ∧
    (Orchestrator.modifyUIO es freshId now msg none opts).errors =
      [("orchestrator", "NO_UI")] ∧
    (Orchestrator.modifyUIO es freshId now msg none opts).uiSpec = none :=
  ⟨rfl, rfl, rfl⟩

/-- C10: the request classifier never answers `unknown`; with no prior
specification every request is classified `create`; consequently the
architect's `UNKNOWN_REQUEST` failure branch is unreachable. -/
theorem C10_classifier_total (msg : String) (ctx : Option UISpec) :
    Architect.analyzeRequestType msg ctx ≠ .unknown ∧
    (ctx = none → Architect.analyzeRequestType msg ctx = .create) ∧
    (∀ freshId now, (Architect.processRequest freshId now msg ctx).errCode ≠
      some "UNKNOWN_REQUEST") := by
  have hne : Architect.analyzeRequestType msg ctx ≠ .unknown := by
    unfold Architect.analyzeRequestType
    by_cases h1 :
        ((Architect.modifyKeywords.any fun k => strContains (toLowerStr msg) k) &&
          ctx.isSome) = true
    · simp [h1]
    · by_cases h2 :
          ((Architect.createKeywords.any fun k => strContains (toLowerStr msg) k) ||
            ctx.isNone) = true
      · simp [h1, h2]
      · by_cases h3 : ctx.isSome = true <;> simp [h1, h2, h3]
  refine ⟨hne, ?_, ?_⟩
  · intro h
    subst h
    simp [Architect.analyzeRequestType]
  · intro freshId now
    unfold Architect.processRequest Architect.handleClassified
    cases hr : Architect.analyzeRequestType msg ctx with
    | create => simp [Architect.ArchitectResult.errCode]
    | unknown => exact absurd hr hne
    | modify =>
      cases ctx with
      | none => simp [Architect.ArchitectResult.errCode]
      | some cur =>
        cases hm : Architect.modifyExistingUI freshId now msg cur with
        | ok ui => simp [hm, Architect.ArchitectResult.errCode]
        | error e =>
          simp only [hm, Architect.ArchitectResult.errCode, Option.some.injEq, ne_eq]
          decide

/-- Witness for C10: a concrete request with no prior specification. -/
theorem C10_classifier_total_witness :
    Architect.analyzeRequestType "asdf" none ≠ .unknown ∧
      Architect.analyzeRequestType "asdf" none = .create :=
  ⟨(C10_classifier_total "asdf" none).1, (C10_classifier_total "asdf" none).2.1 rfl⟩

/-- C5 counterexample: two export calls on identical components and options
but different clock readings produce different bytes — the package's config
file and README embed `generatedAt`, and `export_json_schema` (with its
default `includeMetadata = true`) embeds `metadata.generatedAt`. -/
theorem C5_counterexample :
    ExportSrv.generateExportPackage [] "generated-ui" "2020-01-01T00:00:00.000Z" ≠
      ExportSrv.generateExportPackage [] "generated-ui" "2020-01-01T00:00:01.000Z" ∧
    ExportSrv.exportJsonSchema [] true "2020-01-01T00:00:00.000Z" ≠
      ExportSrv.exportJsonSchema [] true "2020-01-01T00:00:01.000Z" := by
  constructor
  · intro h
    have h2 := congrArg (fun l => (l.get? 2).map (fun f => f.2)) h
    revert h2
    decide
  · intro h
    have h2 := congrArg (fun s => s.data.take 210) h
    revert h2
    decide

/-- C5 amended: export output is deterministic apart from the embedded clock
reading — file paths, the generated page code and the stylesheet agree
across two calls at different times, `export_json_schema` without metadata
is independent of the clock, and calls reading the same clock value are
byte-identical. -/
theorem C5_export_deterministic_up_to_timestamp
    (comps : List ExportSrv.ExportComponent) (projectName t1 t2 : String) :
    ((ExportSrv.generateExportPackage comps projectName t1).map (fun f => f.1) =
      (ExportSrv.generateExportPackage comps projectName t2).map (fun f => f.1)) ∧
    ((ExportSrv.generateExportPackage comps projectName t1).get? 0 =
      (ExportSrv.generateExportPackage comps projectName t2).get? 0) ∧
    ((ExportSrv.generateExportPackage comps projectName t1).get? 1 =
      (ExportSrv.generateExportPackage comps projectName t2).get? 1) ∧
    (ExportSrv.exportJsonSchema comps false t1 = ExportSrv.exportJsonSchema comps false t2) ∧
    (t1 = t2 → ExportSrv.generateExportPackage comps projectName t1 =
      ExportSrv.generateExportPackage comps projectName t2) := by
  refine ⟨rfl, rfl, rfl, rfl, ?_⟩
  intro h
  rw [h]

/-- Witness for C5 (amended) at a concrete input. -/
theorem C5_export_deterministic_up_to_timestamp_witness :
    ("2020-01-01T00:00:00.000Z" : String) = "2020-01-01T00:00:00.000Z" ∧
    ExportSrv.generateExportPackage [] "generated-ui" "2020-01-01T00:00:00.000Z" =
      ExportSrv.generateExportPackage [] "generated-ui" "2020-01-01T00:00:00.000Z" :=
  ⟨rfl,
    (C5_export_deterministic_up_to_timestamp [] "generated-ui"
      "2020-01-01T00:00:00.000Z" "2020-01-01T00:00:00.000Z").2.2.2.2 rfl⟩

/-- A single successful modification step leaves `id` and `metadata`
untouched (it only edits the component list). -/
theorem applyOneMod_preserves (ui : UISpec) (m : Architect.Modification) (ui' : UISpec)
    (h : Architect.applyOneMod ui m = .ok ui') :
    ui'.id = ui.id ∧ ui'.metadata = ui.metadata := by
  unfold Architect.applyOneMod at h
  repeat' split at h
  all_goals cases h
  all_goals exact ⟨rfl, rfl⟩

/-- The modification loop leaves `id` and `metadata` untouched. -/
theorem applyMods_preserves (mods : List Architect.Modification) :
    ∀ ui ui' : UISpec, Architect.applyMods ui mods = .ok ui' →
      ui'.id = ui.id ∧ ui'.metadata = ui.metadata := by
  induction mods with
  | nil =>
    intro ui ui' h
    simp only [Architect.applyMods, Except.ok.injEq] at h
    subst h
    exact ⟨rfl, rfl⟩
  | cons m rest ih =>
    intro ui ui' h
    unfold Architect.applyMods at h
    cases hm : Architect.applyOneMod ui m with
    | error e => rw [hm] at h; simp [Bind.bind, Except.bind] at h
    | ok mid =>
      rw [hm] at h
      simp only [Bind.bind, Except.bind] at h
      obtain ⟨a1, a2⟩ := applyOneMod_preserves ui m mid hm
      obtain ⟨b1, b2⟩ := ih mid ui' h
      exact ⟨b1.trans a1, b2.trans a2⟩

/-- C6 amended: applying critique improvements or accessibility fixes
preserves both the specification id and the whole metadata (so the version);
only the generation modify path reissues the id (to the freshly generated
one) and sets the version to the input's version (defaulting to 0) plus 1. -/
theorem C6_only_modify_bumps_version :
    (∀ ui fb, (DesignCritic.applyImprovements ui fb).id = ui.id ∧
      (DesignCritic.applyImprovements ui fb).metadata = ui.metadata) ∧
    (∀ ui rep, (A11y.applyAccessibilityFixes ui rep).id = ui.id ∧
      (A11y.applyAccessibilityFixes ui rep).metadata = ui.metadata) ∧
    (∀ freshId now req cur ui', Architect.modifyExistingUI freshId now req cur = .ok ui' →
      ui'.id = freshId ∧
      ui'.metadata.bind (fun m => m.version) =
        some ((cur.metadata.bind (fun m => m.version)).getD 0 + 1)) := by
  refine ⟨fun ui fb => ⟨rfl, rfl⟩, fun ui rep => ⟨rfl, rfl⟩, ?_⟩
  intro freshId now req cur ui' h
  unfold Architect.modifyExistingUI at h
  obtain ⟨h1, h2⟩ := applyMods_preserves _ _ _ h
  refine ⟨h1, ?_⟩
  rw [h2]
  rfl

/-- Base specification used to instantiate the modify path of C6. -/
def c6ModSpec : UISpec :=
  { id := "spec-base", components := [], metadata := some { version := some 3 } }

/-- The result of a concrete successful modify run on `c6ModSpec`. -/
def c6Modified : UISpec :=
  match Architect.modifyExistingUI "id-9" "t9" "add button" c6ModSpec with
  | .ok ui => ui
  | .error _ => c6ModSpec

/-- Witness for C6 (amended) at a concrete modify run. -/
theorem C6_only_modify_bumps_version_witness :
    Architect.modifyExistingUI "id-9" "t9" "add button" c6ModSpec = .ok c6Modified ∧
    c6Modified.id = "id-9" ∧
    c6Modified.metadata.bind (fun m => m.version) = some 4 := by
  refine ⟨rfl, ?_⟩
  have h := C6_only_modify_bumps_version.2.2 "id-9" "t9" "add button" c6ModSpec c6Modified rfl
  refine ⟨h.1, ?_⟩
  rw [h.2]
  rfl

/-- Specification refuting C6: one bare card, id `spec-c6`, version 1. -/
def c6Spec : UISpec :=
  { id := "spec-c6",
    components := [{ name := "Card", props := [] }],
    metadata := some { createdAt := some "t0", version := some 1 } }

/-- The design feedback computed for `c6Spec`. -/
def c6Feedback : DesignFeedback :=
  match DesignCritic.analyzeDesign c6Spec with
  | .ok fb => fb
  | .error _ => { score := 0, issues := [], improvements := [] }

/-- `c6Spec` with its critique improvements applied. -/
def c6Improved : UISpec := DesignCritic.applyImprovements c6Spec c6Feedback

/-- C6 counterexample: applying the critique improvements to `c6Spec`
changes the component's properties (a title is added), yet the id and the
whole metadata — so also `metadata.version` — are unchanged, contradicting
the claim that every applied mutation reissues the id and bumps the
version. -/
theorem C6_counterexample :
    DesignCritic.analyzeDesign c6Spec = .ok c6Feedback ∧
    c6Improved.id = c6Spec.id ∧
    c6Improved.metadata = c6Spec.metadata ∧
    jGet ((c6Improved.components.headD { name := "", props := [] }).props) "title" =
      some (.str "Section Title") ∧
    jGet ((c6Spec.components.headD { name := "", props := [] }).props) "title" = none :=
  ⟨rfl, rfl, rfl, rfl, rfl⟩

/-- `mapIdx` with a guarded in-place patch is the identity when the patched
index lies at or beyond `xs.length + k`. -/
theorem mapIdx_oob_add (g : ComponentSpec → ComponentSpec) :
    ∀ (xs : List ComponentSpec) (k idx : Nat), xs.length + k ≤ idx →
      (xs.mapIdx (fun i c => if (i + k) == idx then g c else c)) = xs := by
  intro xs
  induction xs with
  | nil => intro k idx h; simp
  | cons a l ih =>
    intro k idx h
    rw [List.mapIdx_cons]
    have h0 : ¬ (k = idx) := by simp only [List.length_cons] at h; omega
    have harith : ∀ i, i + 1 + k = i + (k + 1) := by intro i; omega
    simp only [harith]
    rw [ih (k + 1) idx (by simp only [List.length_cons] at h; omega)]
    simp [h0]

/-- Specialization of `mapIdx_oob_add` at offset 0. -/
theorem mapIdx_oob (g : ComponentSpec → ComponentSpec) (xs : List ComponentSpec)
    (idx : Nat) (h : xs.length ≤ idx) :
    (xs.mapIdx (fun i c => if i == idx then g c else c)) = xs := by
  have := mapIdx_oob_add g xs 0 idx (by omega)
  simpa using this

/-- The critique improvement fold is the identity when every improvement
index is out of range. -/
theorem foldImprovements_oob (comps : List ComponentSpec) (imps : List Improvement)
    (hoob : ∀ imp ∈ imps, comps.length ≤ imp.componentIndex) :
    imps.foldl (fun cs imp =>
      match imp.proposedProps with
      | some patch =>
        cs.mapIdx (fun i c =>
          if i == imp.componentIndex then { c with props := mergeProps c.props patch } else c)
      | none => cs) comps = comps := by
  induction imps with
  | nil => rfl
  | cons imp rest ih =>
    have hstep : (match imp.proposedProps with
        | some patch =>
          comps.mapIdx (fun i c =>
            if i == imp.componentIndex then { c with props := mergeProps c.props patch } else c)
        | none => comps) = comps := by
      cases imp.proposedProps with
      | none => rfl
      | some patch =>
        exact mapIdx_oob _ comps imp.componentIndex (hoob imp (by simp))
    rw [List.foldl_cons, hstep]
    exact ih (fun i hi => hoob i (by simp [hi]))

/-- The accessibility fix fold is the identity when every violation index is
missing or out of range. -/
theorem foldFixes_oob (comps : List ComponentSpec) (vs : List Violation)
    (hoob : ∀ v ∈ vs, ∀ idx, v.componentIndex = some idx → comps.length ≤ idx) :
    vs.foldl (fun cs v =>
      match v.componentIndex with
      | none => cs
      | some idx => cs.mapIdx (fun i c => if i == idx then A11y.fixComponent c v else c))
      comps = comps := by
  induction vs with
  | nil => rfl
  | cons v rest ih =>
    have hstep : (match v.componentIndex with
        | none => comps
        | some idx =>
          comps.mapIdx (fun i c => if i == idx then A11y.fixComponent c v else c)) = comps := by
      cases hv : v.componentIndex with
      | none => rfl
      | some idx =>
        exact mapIdx_oob _ comps idx (hoob v (by simp) idx hv)
    rw [List.foldl_cons, hstep]
    exact ih (fun w hw idx hidx => hoob w (by simp [hw]) idx hidx)

/-- C9 amended: an out-of-range property patch is a silent no-op at the
critique improvement site and at the validation fix site, but the generation
modify path's update of component 0 (triggered e.g. by a request containing
`bigger`) raises a `TypeError` — caught upstream as `PROCESSING_ERROR` —
when the specification has zero components, rather than being a no-op. -/
theorem C9_out_of_range_patch :
    (∀ ui fb, (∀ imp ∈ fb.improvements, ui.components.length ≤ imp.componentIndex) →
      DesignCritic.applyImprovements ui fb = ui) ∧
    (∀ ui rep, (∀ v ∈ rep.violations, ∀ idx, v.componentIndex = some idx →
        ui.components.length ≤ idx) →
      A11y.applyAccessibilityFixes ui rep = ui) ∧
    (∀ freshId now req ui, ui.components = [] →
      strContains (toLowerStr req) "bigger" = true →
      Architect.modifyExistingUI freshId now req ui =
        .error "TypeError: Cannot set properties of undefined (setting props)") := by
  refine ⟨?_, ?_, ?_⟩
  · intro ui fb hoob
    unfold DesignCritic.applyImprovements
    rw [foldImprovements_oob ui.components fb.improvements hoob]
  · intro ui rep hoob
    unfold A11y.applyAccessibilityFixes
    rw [foldFixes_oob ui.components rep.violations hoob]
  · intro freshId now req ui h0 hbig
    unfold Architect.modifyExistingUI Architect.determineModifications
    by_cases hm : (strContains (toLowerStr req) "more modern" ||
        strContains (toLowerStr req) "modern") = true <;>
      simp [hm, hbig, h0, Architect.applyMods, Architect.applyOneMod, Bind.bind, Except.bind]

/-- Bare specification with zero components used for C9. -/
def c9Spec : UISpec := { id := "spec-c9", components := [] }

/-- C9 counterexample: the modify path's update of component 0 on a
zero-component specification raises a `TypeError` instead of being a silent
no-op. -/
theorem C9_counterexample :
    Architect.modifyExistingUI "id-2" "t1" "make it bigger" c9Spec =
      .error "TypeError: Cannot set properties of undefined (setting props)" := rfl

/-- Feedback with one out-of-range improvement, for the C9 witness. -/
def c9Fb : DesignFeedback :=
  { score := 0, issues := [],
    improvements := [{ componentIndex := 5, suggestion := "s",
                       proposedProps := some [("a", JValue.null)] }] }

/-- Report with one out-of-range violation, for the C9 witness. -/
def c9Rep : AccessibilityReport :=
  { passed := true, score := 100,
    violations := [{ rule := "image-alt", impact := .serious, description := "d",
                     fix := "f", componentIndex := some 7 }],
    warnings := [] }

/-- Witness for C9 (amended) at concrete inputs. -/
theorem C9_out_of_range_patch_witness :
    DesignCritic.applyImprovements c9Spec c9Fb = c9Spec ∧
    A11y.applyAccessibilityFixes c9Spec c9Rep = c9Spec ∧
    Architect.modifyExistingUI "id-3" "t1" "make it bigger" c9Spec =
      .error "TypeError: Cannot set properties of undefined (setting props)" := by
  refine ⟨?_, ?_, ?_⟩
  · refine C9_out_of_range_patch.1 c9Spec c9Fb ?_
    intro imp h
    simp only [c9Fb, List.mem_singleton] at h
    subst h
    decide
  · refine C9_out_of_range_patch.2.1 c9Spec c9Rep ?_
    intro v h idx hidx
    simp only [c9Rep, List.mem_singleton] at h
    subst h
    simp only [Option.some.injEq] at hidx
    subst hidx
    decide
  · exact C9_out_of_range_patch.2.2 "id-3" "t1" "make it bigger" c9Spec rfl (by decide)

/-- Every extracted style key is of the form `style:` followed by a style
keyword. -/
theorem mem_styleTopics (desc x : String) (h : x ∈ Architect.styleTopics desc) :
    ∃ st ∈ Architect.styleKeywords, x = "style:" ++ st := by
  simp only [Architect.styleTopics, List.mem_filterMap] at h
  obtain ⟨st, hst, hx⟩ := h
  refine ⟨st, hst, ?_⟩
  split at hx
  · exact (Option.some.injEq _ _ ▸ hx).symm
  · exact absurd hx (by simp)

/-- The style keys never collide with a given non-`style:` keyword. -/
theorem styleTopics_not_contains (desc t : String)
    (hne : ∀ st ∈ Architect.styleKeywords, ("style:" ++ st) ≠ t) :
    (Architect.styleTopics desc).contains t = false := by
  cases h : (Architect.styleTopics desc).contains t with
  | false => rfl
  | true =>
    have ht : t ∈ Architect.styleTopics desc := List.elem_iff.mp h
    obtain ⟨st, hst, hx⟩ := mem_styleTopics desc t ht
    exact absurd hx.symm (hne st hst)

/-- C8: a create request matching no topic keyword (and not mentioning hero,
feature, landing or cta) generates exactly the two-component fallback: a
container card followed by a call-to-action button. -/
theorem C8_fallback_two_components (freshId now desc : String)
    (h1 : Architect.componentTopics desc = [])
    (h2 : strContains (toLowerStr desc) "hero" = false)
    (h3 : strContains (toLowerStr desc) "feature" = false)
    (h4 : strContains (toLowerStr desc) "landing" = false)
    (h5 : strContains (toLowerStr desc) "cta" = false) :
    (Architect.createNewUI freshId now desc).components =
      [Architect.createCardSpec desc, Architect.createButtonSpec desc] ∧
    (Architect.createNewUI freshId now desc).components.map (fun c => c.name) =
      ["Card", "Button"] := by
  have hkw : Architect.extractKeywords desc = Architect.styleTopics desc := by
    unfold Architect.extractKeywords
    rw [h1]
    rfl
  have hpric := styleTopics_not_contains desc "pricing" (by decide)
  have hdash := styleTopics_not_contains desc "dashboard" (by decide)
  have hchart := styleTopics_not_contains desc "chart" (by decide)
  have hform := styleTopics_not_contains desc "form" (by decide)
  have hmodal := styleTopics_not_contains desc "modal" (by decide)
  have htest := styleTopics_not_contains desc "testimonial" (by decide)
  have hcard := styleTopics_not_contains desc "card" (by decide)
  have hsel : Architect.selectComponents (Architect.styleTopics desc) desc =
      [Architect.createCardSpec desc, Architect.createButtonSpec desc] := by
    unfold Architect.selectComponents
    simp only [hpric, hdash, hchart, hform, hmodal, htest, hcard, h2, h3, h4, h5]
    simp
  have hcomp : (Architect.createNewUI freshId now desc).components =
      Architect.selectComponents (Architect.extractKeywords desc) desc := by
    simp only [Architect.createNewUI]
  rw [hcomp, hkw, hsel]
  exact ⟨rfl, rfl⟩

/-- Witness for C8 at the concrete request `asdf`. -/
theorem C8_fallback_two_components_witness :
    Architect.componentTopics "asdf" = [] ∧
    (Architect.createNewUI "id-8" "t8" "asdf").components.map (fun c => c.name) =
      ["Card", "Button"] :=
  ⟨by decide,
    (C8_fallback_two_components "id-8" "t8" "asdf" (by decide) (by decide) (by decide)
      (by decide) (by decide)).2⟩

/-- Number of issues with a given severity. -/
def countSeverity (issues : List DesignIssue) (sev : Severity) : Nat :=
  (issues.filter (fun i => i.severity == sev)).length

/-- The issue fold of `calculateScore` subtracts 20 per error, 10 per
warning and 5 per suggestion. -/
theorem critique_fold_counts (issues : List DesignIssue) :
    ∀ s : Int, issues.foldl (fun acc i => acc - DesignCritic.severityPenalty i.severity) s =
      s - 20 * (countSeverity issues .error : Int) -
        10 * (countSeverity issues .warning : Int) -
        5 * (countSeverity issues .suggestion : Int) := by
  induction issues with
  | nil => intro s; simp [countSeverity]
  | cons i rest ih =>
    intro s
    rw [List.foldl_cons, ih]
    cases hsev : i.severity <;>
      simp only [countSeverity, List.filter_cons, hsev, DesignCritic.severityPenalty] <;>
      simp [List.length_cons] <;> omega

/-- Folding repeated subtractions of nonnegative amounts never increases the
accumulator. -/
theorem foldl_sub_le {α : Type} (f : α → Int) (hf : ∀ a, 0 ≤ f a) :
    ∀ (xs : List α) (s : Int), xs.foldl (fun acc a => acc - f a) s ≤ s := by
  intro xs
  induction xs with
  | nil => intro s; simp
  | cons a l ih =>
    intro s
    rw [List.foldl_cons]
    have h1 := ih (s - f a)
    have h2 := hf a
    omega

/-- The score actually computed by `calculateScore`, written in counting
form: the +5 bonus is applied (and capped at 100) before the floor at 0. -/
def codeScoreFormula (fb : DesignFeedback) : Int :=
  let raw : Int := 100 - 20 * (countSeverity fb.issues .error : Int) -
    10 * (countSeverity fb.issues .warning : Int) -
    5 * (countSeverity fb.issues .suggestion : Int)
  let withBonus :=
    if fb.improvements.length > 0 && fb.improvements.length ≤ 3 then min 100 (raw + 5)
    else raw
  max 0 withBonus

/-- Modelled from the spec: the claimed scoring formula of C4 — subtract
20/10/5 per error/warning/suggestion, floor at 0 first, then add the +5
bonus capped at 100 when there are 1–3 improvements. -/
def claimedScoreFormula (fb : DesignFeedback) : Int :=
  let raw : Int := 100 - 20 * (countSeverity fb.issues .error : Int) -
    10 * (countSeverity fb.issues .warning : Int) -
    5 * (countSeverity fb.issues .suggestion : Int)
  let floored := max 0 raw
  if fb.improvements.length > 0 && fb.improvements.length ≤ 3 then min 100 (floored + 5)
  else floored

/-- `calculateScore` equals the counting form `codeScoreFormula`. -/
theorem calculateScore_eq (fb : DesignFeedback) :
    DesignCritic.calculateScore fb = codeScoreFormula fb := by
  unfold DesignCritic.calculateScore codeScoreFormula
  rw [critique_fold_counts]

/-- Scores computed by `calculateScore` lie in `[0, 100]`. -/
theorem calculateScore_range (fb : DesignFeedback) :
    0 ≤ DesignCritic.calculateScore fb ∧ DesignCritic.calculateScore fb ≤ 100 := by
  rw [calculateScore_eq]
  unfold codeScoreFormula
  constructor
  · exact le_max_left 0 _
  · apply max_le (by norm_num)
    split
    · exact min_le_left 100 _
    · have h1 : (0 : Int) ≤ (countSeverity fb.issues .error : Int) := Int.ofNat_nonneg _
      have h2 : (0 : Int) ≤ (countSeverity fb.issues .warning : Int) := Int.ofNat_nonneg _
      have h3 : (0 : Int) ≤ (countSeverity fb.issues .suggestion : Int) := Int.ofNat_nonneg _
      omega

/-- Scores computed by `calculateA11yScore` lie in `[0, 100]`. -/
theorem calculateA11yScore_range (vs : List Violation) (ws : List A11yWarning) :
    0 ≤ A11y.calculateA11yScore vs ws ∧ A11y.calculateA11yScore vs ws ≤ 100 := by
  unfold A11y.calculateA11yScore
  constructor
  · exact le_max_left 0 _
  · apply max_le (by norm_num)
    have h1 : vs.foldl (fun acc v => acc - A11y.impactPenalty v.impact) 100 ≤ 100 := by
      refine foldl_sub_le (fun v => A11y.impactPenalty v.impact) ?_ vs 100
      intro v
      cases hv : v.impact <;> simp [hv, A11y.impactPenalty]
    have h2 := foldl_sub_le (fun _ : A11yWarning => (2 : Int)) (fun _ => by norm_num) ws
      (vs.foldl (fun acc v => acc - A11y.impactPenalty v.impact) 100)
    omega

/-- C4 amended: the critique score is computed by subtracting 20/10/5 per
error/warning/suggestion issue, then applying the +5 bonus (capped at 100)
when there are 1–3 improvements, and only then flooring at 0 — the bonus is
applied before the floor, not after it as the claim states; both the
critique score and the validation report score always lie in `[0, 100]`. -/
theorem C4_score_formula_and_range :
    (∀ ui fb, DesignCritic.analyzeDesign ui = .ok fb →
      fb.score = codeScoreFormula fb ∧ 0 ≤ fb.score ∧ fb.score ≤ 100) ∧
    (∀ ui rep, A11y.runAccessibilityChecks ui = .ok rep →
      0 ≤ rep.score ∧ rep.score ≤ 100) := by
  constructor
  · intro ui fb h
    unfold DesignCritic.analyzeDesign at h
    cases hc : DesignCritic.checkComponentsFrom ui.components 0 with
    | error e => rw [hc] at h; simp [Bind.bind, Except.bind] at h
    | ok pair =>
      rw [hc] at h
      simp only [Bind.bind, Except.bind, Except.ok.injEq] at h
      subst h
      refine ⟨?_, calculateScore_range _⟩
      rw [calculateScore_eq]
      rfl
  · intro ui rep h
    unfold A11y.runAccessibilityChecks at h
    cases hc : A11y.checkComponentsFrom ui.components 0 with
    | error e => rw [hc] at h; simp [Bind.bind, Except.bind] at h
    | ok vw =>
      rw [hc] at h
      simp only [Bind.bind, Except.bind, Except.ok.injEq] at h
      subst h
      exact calculateA11yScore_range _ _

/-- Eleven icon-only buttons: twelve warnings and one improvement, driving
the raw score to −20 before the bonus. -/
def c4Spec : UISpec :=
  { id := "spec-c4",
    components := List.replicate 11 { name := "Button", props := [("iconOnly", .bool true)] } }

/-- The feedback computed for `c4Spec`. -/
def c4Feedback : DesignFeedback :=
  match DesignCritic.analyzeDesign c4Spec with
  | .ok fb => fb
  | .error _ => { score := 0, issues := [], improvements := [] }

/-- C4 counterexample: on `c4Spec` the code computes score 0 (bonus applied
to the negative raw score before flooring), while the claimed
floor-then-bonus formula yields 5. -/
theorem C4_counterexample :
    DesignCritic.analyzeDesign c4Spec = .ok c4Feedback ∧
    c4Feedback.score = 0 ∧
    claimedScoreFormula c4Feedback = 5 := by
  refine ⟨rfl, by decide, by decide⟩

/-- Witness for C4 (amended) at the concrete specification `c4Spec`. -/
theorem C4_score_formula_and_range_witness :
    DesignCritic.analyzeDesign c4Spec = .ok c4Feedback ∧
    c4Feedback.score = codeScoreFormula c4Feedback ∧
    (0 ≤ c4Feedback.score ∧ c4Feedback.score ≤ 100) ∧
    (∀ rep, A11y.runAccessibilityChecks c4Spec = .ok rep →
      0 ≤ rep.score ∧ rep.score ≤ 100) := by
  have h := C4_score_formula_and_range.1 c4Spec c4Feedback rfl
  exact ⟨rfl, h.1, h.2, fun rep hrep => C4_score_formula_and_range.2 c4Spec rep hrep⟩

/-- The pricing-table checks only ever report `suggestion`-severity issues. -/
theorem pricingChecks_no_error (props : Props) (idx : Nat)
    (out : List DesignIssue × List Improvement)
    (h : DesignCritic.pricingChecks props idx = .ok out) :
    ∀ i ∈ out.1, i.severity ≠ Severity.error := by
  unfold DesignCritic.pricingChecks at h
  repeat' split at h
  all_goals cases h
  all_goals intro i hi
  all_goals simp_all

/-- Per-component critic checks never report an `error`-severity issue. -/
theorem checkComponent_no_error (c : ComponentSpec) (idx : Nat)
    (out : List DesignIssue × List Improvement)
    (h : DesignCritic.checkComponent c idx = .ok out) :
    ∀ i ∈ out.1, i.severity ≠ Severity.error := by
  simp only [DesignCritic.checkComponent] at h
  by_cases hn : (c.name == "PricingTable") = true
  · rw [if_pos hn] at h
    cases hp : DesignCritic.pricingChecks c.props idx with
    | error e => rw [hp] at h; simp [Bind.bind, Except.bind] at h
    | ok pr =>
      rw [hp] at h
      simp only [Bind.bind, Except.bind, Except.ok.injEq] at h
      subst h
      intro i hi
      simp only [List.mem_append] at hi
      rcases hi with hi | hi
      · split at hi <;> simp_all
      · exact pricingChecks_no_error _ _ _ hp i hi
  · rw [if_neg hn] at h
    simp only [Bind.bind, Except.bind, Except.ok.injEq] at h
    subst h
    intro i hi
    simp only [List.mem_append] at hi
    rcases hi with hi | hi
    · split at hi <;> simp_all
    · simp_all

/-- Layout checks never report an `error`-severity issue. -/
theorem checkLayout_no_error (ui : UISpec) :
    ∀ i ∈ (DesignCritic.checkLayout ui).1, i.severity ≠ Severity.error := by
  unfold DesignCritic.checkLayout
  intro i hi
  simp only [List.mem_append] at hi
  rcases hi with hi | hi <;> (split at hi <;> simp_all)

/-- Consistency checks never report an `error`-severity issue. -/
theorem checkConsistency_no_error (comps : List ComponentSpec) :
    ∀ i ∈ DesignCritic.checkConsistency comps, i.severity ≠ Severity.error := by
  unfold DesignCritic.checkConsistency
  intro i hi
  simp only [List.mem_append] at hi
  rcases hi with hi | hi <;> (split at hi <;> simp_all)

/-- The component loop of the critic never reports an `error`-severity
issue. -/
theorem checkComponentsFrom_no_error (comps : List ComponentSpec) :
    ∀ (k : Nat) (out : List DesignIssue × List Improvement),
      DesignCritic.checkComponentsFrom comps k = .ok out →
      ∀ i ∈ out.1, i.severity ≠ Severity.error := by
  induction comps with
  | nil =>
    intro k out h
    simp only [DesignCritic.checkComponentsFrom, Except.ok.injEq] at h
    subst h
    simp
  | cons c rest ih =>
    intro k out h
    unfold DesignCritic.checkComponentsFrom at h
    cases h1 : DesignCritic.checkComponent c k with
    | error e => rw [h1] at h; simp [Bind.bind, Except.bind] at h
    | ok o1 =>
      rw [h1] at h
      cases h2 : DesignCritic.checkComponentsFrom rest (k + 1) with
      | error e => rw [h2] at h; simp [Bind.bind, Except.bind] at h
      | ok o2 =>
        rw [h2] at h
        simp only [Bind.bind, Except.bind, Except.ok.injEq] at h
        subst h
        intro i hi
        simp only [List.mem_append] at hi
        rcases hi with hi | hi
        · exact checkComponent_no_error c k o1 h1 i hi
        · exact ih (k + 1) o2 h2 i hi

/-- A completed critique never contains an `error`-severity issue: the rule
catalog only emits warnings and suggestions. -/
theorem analyzeDesign_no_error (ui : UISpec) (fb : DesignFeedback)
    (h : DesignCritic.analyzeDesign ui = .ok fb) :
    ∀ i ∈ fb.issues, i.severity ≠ Severity.error := by
  unfold DesignCritic.analyzeDesign at h
  cases hc : DesignCritic.checkComponentsFrom ui.components 0 with
  | error e => rw [hc] at h; simp [Bind.bind, Except.bind] at h
  | ok pair =>
    rw [hc] at h
    cases hl : DesignCritic.checkLayout ui with
    | mk layIssues layImps =>
      rw [hl] at h
      simp only [Bind.bind, Except.bind, Except.ok.injEq] at h
      subst h
      intro i hi
      simp only [List.mem_append] at hi
      rcases hi with (hi | hi) | hi
      · exact checkComponentsFrom_no_error ui.components 0 pair hc i hi
      · have := checkLayout_no_error ui
        rw [hl] at this
        exact this i hi
      · exact checkConsistency_no_error ui.components i hi

/-- The feedback carried by a critic response payload. -/
def respFeedback (r : DesignCritic.ReviewResponse) : Option DesignFeedback :=
  match r.data with
  | some (.feedbackOnly fb) => some fb
  | some (.withImproved fb _) => some fb
  | none => none

/-- The improved specification carried by a critic response payload. -/
def respImproved (r : DesignCritic.ReviewResponse) : Option UISpec :=
  match r.data with
  | some (.withImproved _ ui) => some ui
  | _ => none

/-- C7: for every specification whose critique completes, the critic's
response is blocking (unsuccessful) exactly when some reported issue has
severity `error`; and whenever it is blocking the response still carries
the computed feedback and the improved specification.  (The rule catalog
never emits `error`-severity issues, so the blocking branch — which in the
source would carry the raw feedback but no improved specification — is
unreachable.) -/
theorem C7_blocking_iff_error (ui : UISpec) (fb : DesignFeedback)
    (h : DesignCritic.analyzeDesign ui = .ok fb) :
    ((DesignCritic.review ui).success = false ↔
      fb.issues.any (fun i => i.severity == Severity.error) = true) ∧
    ((DesignCritic.review ui).success = false →
      respFeedback (DesignCritic.review ui) = some fb ∧
      ∃ improved, respImproved (DesignCritic.review ui) = some improved) := by
  have hno := analyzeDesign_no_error ui fb h
  have hany : fb.issues.any (fun i => i.severity == Severity.error) = false := by
    rw [List.any_eq_false]
    intro i hi
    simp [hno i hi]
  have hrev : DesignCritic.review ui =
      { success := true,
        data := some (.withImproved fb (DesignCritic.applyImprovements ui fb)),
        errors := [], suggestions := [] } := by
    unfold DesignCritic.review
    rw [h]
    simp [hany]
  rw [hrev]
  constructor
  · simp [hany]
  · intro hcontra
    simp at hcontra

/-- Specification used to instantiate C7. -/
def c7Ui : UISpec :=
  { id := "ui-7", components := [{ name := "Card", props := [("title", .str "T")] }] }

/-- The feedback computed for `c7Ui`. -/
def c7Feedback : DesignFeedback :=
  match DesignCritic.analyzeDesign c7Ui with
  | .ok fb => fb
  | .error _ => { score := 0, issues := [], improvements := [] }

/-- Witness for C7 at the concrete specification `c7Ui`. -/
theorem C7_blocking_iff_error_witness :
    DesignCritic.analyzeDesign c7Ui = .ok c7Feedback ∧
    ((DesignCritic.review c7Ui).success = false ↔
      c7Feedback.issues.any (fun i => i.severity == Severity.error) = true) :=
  ⟨rfl, (C7_blocking_iff_error c7Ui c7Feedback rfl).1⟩

/-- Outcomes of the accessibility stage: either the checks raised (no report,
unsuccessful response) or a report was produced, the fixed UI accompanies it,
and success is exactly the absence of critical violations. -/
theorem validate_cases (ui : UISpec) :
    ((A11y.validate ui).report = none ∧ (A11y.validate ui).success = false) ∨
    (∃ rep, A11y.runAccessibilityChecks ui = .ok rep ∧
      (A11y.validate ui).report = some rep ∧
      (A11y.validate ui).fixedUI = some (A11y.applyAccessibilityFixes ui rep) ∧
      (A11y.validate ui).success = (countCritical rep.violations == 0)) := by
  unfold A11y.validate
  cases hr : A11y.runAccessibilityChecks ui with
  | error e => exact Or.inl ⟨rfl, rfl⟩
  | ok r =>
    refine Or.inr ⟨r, rfl, ?_⟩
    dsimp only
    by_cases hc : (r.violations.filter (fun v => v.impact == Impact.critical)).length > 0
    · rw [if_pos hc]
      refine ⟨rfl, rfl, ?_⟩
      have : countCritical r.violations ≠ 0 := by
        unfold countCritical
        omega
      simp [this]
    · rw [if_neg hc]
      refine ⟨rfl, rfl, ?_⟩
      have : countCritical r.violations = 0 := by
        unfold countCritical
        omega
      simp [this]

/-- Actions logged by the critique step. -/
theorem runCritiqueStep_actions (opts : Orchestrator.OrchestratorOptions) (spec : UISpec) :
    (Orchestrator.runCritiqueStep opts spec).actions =
      if opts.skipDesignReview then [] else ["VALIDATE_DESIGN"] := by
  unfold Orchestrator.runCritiqueStep
  split <;> rfl

/-- A blocking critique is recorded as a `design-critic` error entry. -/
theorem runCritiqueStep_errors_of_blocking (opts : Orchestrator.OrchestratorOptions)
    (spec : UISpec) (hskip : opts.skipDesignReview = false)
    (hfail : (DesignCritic.review spec).success = false) :
    ∃ c, (Orchestrator.runCritiqueStep opts spec).errors = [("design-critic", c)] := by
  unfold Orchestrator.runCritiqueStep
  rw [if_neg (by simp [hskip])]
  simp only [hfail]
  exact ⟨_, rfl⟩

/-- Shape of the accessibility step when the stage is not skipped. -/
theorem runA11yStep_unfold (opts : Orchestrator.OrchestratorOptions) (ui : UISpec)
    (h : opts.skipAccessibilityCheck = false) :
    (Orchestrator.runA11yStep opts ui).actions = ["VALIDATE_ACCESSIBILITY"] ∧
    (Orchestrator.runA11yStep opts ui).report = (A11y.validate ui).report ∧
    (Orchestrator.runA11yStep opts ui).halt =
      (!(A11y.validate ui).success &&
        (match (A11y.validate ui).report with
         | some rep => !rep.passed
         | none => false)) := by
  unfold Orchestrator.runA11yStep
  rw [if_neg (by simp [h])]
  exact ⟨rfl, rfl, rfl⟩

/-- The export step always logs `EXPORT_CODE` when export is enabled. -/
theorem runExportStep_actions (es : UISpec → Option Orchestrator.ExportPackage)
    (opts : Orchestrator.OrchestratorOptions) (ui : UISpec)
    (hE : opts.exportOnSuccess = true) :
    (Orchestrator.runExportStep es opts ui).2.2 = ["EXPORT_CODE"] := by
  unfold Orchestrator.runExportStep
  rw [if_pos (by simp [hE])]
  cases es ui <;> rfl

/-- The pipeline on a successful generation, written with the two stage
outputs named. -/
theorem processRequestO_ok (es : UISpec → Option Orchestrator.ExportPackage)
    (freshId now msg : String) (ctx : Option UISpec)
    (opts : Orchestrator.OrchestratorOptions) (spec : UISpec)
    (harch : Architect.processRequest freshId now msg ctx = .ok spec) :
    Orchestrator.processRequestO es freshId now msg ctx opts =
      (let s2 := Orchestrator.runCritiqueStep opts spec
       let s3 := Orchestrator.runA11yStep opts s2.ui
       if s3.halt then
        { success := false, uiSpec := some s3.ui, designFeedback := s2.feedback,
          accessibilityReport := s3.report, exportPackage := none,
          errors := s2.errors ++ s3.errors,
          actions := ["ANALYZE_REQUEST", "CREATE_UI"] ++ s2.actions ++ s3.actions }
       else
        let s4 := Orchestrator.runExportStep es opts s3.ui
        let errors := s2.errors ++ s3.errors ++ s4.2.1
        { success :=
            (errors.filter (fun e =>
              e.1 == "accessibility" && startsWithStr e.2 "A11Y_")).length == 0,
          uiSpec := some s3.ui, designFeedback := s2.feedback,
          accessibilityReport := s3.report, exportPackage := s4.1,
          errors := errors,
          actions := ["ANALYZE_REQUEST", "CREATE_UI"] ++ s2.actions ++ s3.actions ++ s4.2.2 }) := by
  unfold Orchestrator.processRequestO
  rw [harch]

/-- C3: in every pipeline run with validation enabled and export configured
on, a successful generation always reaches the validation stage — a blocking
critique is only recorded as a `design-critic` error and does not stop the
run — and the run reaches the export stage exactly when the recorded
accessibility report (if any) has zero critical violations; a failed
generation never reaches export.  Thus the validation gate is the only
mid-pipeline condition that halts the run. -/
theorem C3_validation_only_gate (es : UISpec → Option Orchestrator.ExportPackage)
    (freshId now msg : String) (ctx : Option UISpec)
    (opts : Orchestrator.OrchestratorOptions)
    (hA : opts.skipAccessibilityCheck = false) (hE : opts.exportOnSuccess = true) :
    (∀ spec, Architect.processRequest freshId now msg ctx = .ok spec →
      ("VALIDATE_ACCESSIBILITY" ∈
        (Orchestrator.processRequestO es freshId now msg ctx opts).actions ∧
       (opts.skipDesignReview = false → (DesignCritic.review spec).success = false →
        ∃ c, ("design-critic", c) ∈
          (Orchestrator.processRequestO es freshId now msg ctx opts).errors) ∧
       ("EXPORT_CODE" ∈ (Orchestrator.processRequestO es freshId now msg ctx opts).actions ↔
        (∀ rep, (Orchestrator.processRequestO es freshId now msg ctx opts).accessibilityReport =
            some rep → countCritical rep.violations = 0)))) ∧
    (∀ code m, Architect.processRequest freshId now msg ctx = .err code m →
      "EXPORT_CODE" ∉ (Orchestrator.processRequestO es freshId now msg ctx opts).actions) := by
  constructor
  · intro spec harch
    rw [processRequestO_ok es freshId now msg ctx opts spec harch]
    obtain ⟨ha1, ha2, ha3⟩ :=
      runA11yStep_unfold opts (Orchestrator.runCritiqueStep opts spec).ui hA
    have hact2 := runCritiqueStep_actions opts spec
    have hexp := runExportStep_actions es opts
      (Orchestrator.runA11yStep opts (Orchestrator.runCritiqueStep opts spec).ui).ui hE
    have hnoExp2 : "EXPORT_CODE" ∉ (Orchestrator.runCritiqueStep opts spec).actions := by
      rw [hact2]
      split <;> simp
    have hnoVD : "VALIDATE_ACCESSIBILITY" ∉ (Orchestrator.runCritiqueStep opts spec).actions := by
      rw [hact2]
      split <;> simp
    by_cases hhalt : (Orchestrator.runA11yStep opts
        (Orchestrator.runCritiqueStep opts spec).ui).halt = true
    · rw [if_pos hhalt]
      refine ⟨?_, ?_, ?_⟩
      · simp [ha1]
      · intro hskip hfail
        obtain ⟨c, hc⟩ := runCritiqueStep_errors_of_blocking opts spec hskip hfail
        exact ⟨c, by simp [hc]⟩
      · have hrep : ∃ rep,
            (Orchestrator.runA11yStep opts (Orchestrator.runCritiqueStep opts spec).ui).report =
              some rep ∧ countCritical rep.violations ≠ 0 := by
          rw [ha3] at hhalt
          rcases validate_cases (Orchestrator.runCritiqueStep opts spec).ui with
            ⟨hn, _⟩ | ⟨rep, hok, hsome, _, hsucc⟩
          · rw [hn] at hhalt
            simp at hhalt
          · rw [hsome] at hhalt
            dsimp only at hhalt
            refine ⟨rep, by rw [ha2, hsome], ?_⟩
            intro hzero
            have hp := (runChecks_passed_iff _ rep hok).mpr hzero
            rw [hp, hsucc] at hhalt
            simp [hzero] at hhalt
        obtain ⟨rep, hrep1, hrep2⟩ := hrep
        constructor
        · intro hmem
          simp only [List.mem_append] at hmem
          rcases hmem with (hmem | hmem) | hmem
          · simp at hmem
          · exact absurd hmem hnoExp2
          · rw [ha1] at hmem
            simp at hmem
        · intro hall
          exact absurd (hall rep hrep1) hrep2
    · rw [if_neg hhalt]
      refine ⟨?_, ?_, ?_⟩
      · simp [ha1]
      · intro hskip hfail
        obtain ⟨c, hc⟩ := runCritiqueStep_errors_of_blocking opts spec hskip hfail
        exact ⟨c, by simp [hc]⟩
      · constructor
        · intro _ rep hrep
          rw [ha2] at hrep
          rcases validate_cases (Orchestrator.runCritiqueStep opts spec).ui with
            ⟨hn, _⟩ | ⟨rep', hok, hsome, _, hsucc⟩
          · rw [hn] at hrep
            cases hrep
          · rw [hsome] at hrep
            injection hrep with heq
            rw [heq] at hok hsome hsucc
            by_cases hz : countCritical rep.violations = 0
            · exact hz
            · exfalso
              apply hhalt
              rw [ha3, hsome]
              dsimp only
              have hpf : rep.passed = false := by
                cases hpv : rep.passed with
                | false => rfl
                | true => exact absurd ((runChecks_passed_iff _ rep hok).mp hpv) hz
              rw [hpf, hsucc]
              simp [hz]
        · intro _
          simp [hexp]
  · intro code m harch
    unfold Orchestrator.processRequestO
    rw [harch]
    simp

/-- Witness for C3: the pipeline on request `hello asdf` with an abstract
export stage reaches validation and export (no critical violations on the
fallback components), with default options. -/
theorem C3_validation_only_gate_witness :
    Architect.processRequest "id-3w" "t3" "hello asdf" none =
      .ok (Architect.createNewUI "id-3w" "t3" "hello asdf") ∧
    "VALIDATE_ACCESSIBILITY" ∈
      (Orchestrator.processRequestO (fun _ => none) "id-3w" "t3" "hello asdf" none {}).actions ∧
    ("EXPORT_CODE" ∈
      (Orchestrator.processRequestO (fun _ => none) "id-3w" "t3" "hello asdf" none {}).actions ↔
     (∀ rep, (Orchestrator.processRequestO (fun _ => none) "id-3w" "t3" "hello asdf"
          none {}).accessibilityReport = some rep → countCritical rep.violations = 0)) := by
  have h := (C3_validation_only_gate (fun _ => none) "id-3w" "t3" "hello asdf" none {} rfl rfl).1
    (Architect.createNewUI "id-3w" "t3" "hello asdf") rfl
  exact ⟨rfl, h.1, h.2.2⟩

end UISmith
